import Mathlib

-- Verification of the cloudstack terraform provider's resource lifecycle
-- controllers.  Remote API calls are modelled by explicit oracle records: each
-- call site receives its outcome (an `Except String` value) as data, and the
-- controllers are translated as pure functions that thread an explicit trace
-- of the remote calls they issue together with the Go function's return value
-- (`Option String`, `none` meaning a nil error).

set_option maxHeartbeats 1000000

-- The alphabet of remote API calls issued by the controllers.
inductive Call where
  | GetVolumeByID
  | DetachVolume
  | AttachVolume
  | StopVirtualMachine
  | StartVirtualMachine
  | DestroyVirtualMachine
  | DeleteVolume
  | DeleteNetwork
  | DeleteVPC
  | DeletePrivateGateway
  | DeleteNetworkACLList
  | DeleteVpnCustomerGateway
  | UpdateVirtualMachine
  | ChangeServiceForVirtualMachine
  | UpdateVMAffinityGroup
  | ResetSSHKeyForVirtualMachine
  | RetrieveID
  | DeployVirtualMachine
  | CreateVolume
  | CreateNetwork
  | CreateVPC
  | CreateSecurityGroup
  | CreateAffinityGroup
  | CreateNetworkACLList
  | CreatePrivateGateway
  | CreateVpnCustomerGateway
  | ReplaceNetworkACLList
  | AssociateIpAddress
  | SetTagsCall
  | UpdateTagsCall
  | ListVolumes
  | GetZoneByID
  | GetNetworkOfferingByID
  | GetVPCOfferingByID
  | ListPublicIpAddresses
  | GetPublicIpAddressByID
  | GetVirtualMachineByID
  | GetNetworkByID
  | GetVPCByID
  | GetSecurityGroupByID
  | GetAffinityGroupByID
  | GetNetworkACLListByID
  | GetPrivateGatewayByID
  | GetVpnCustomerGatewayByID
  | ResizeVolume
  deriving DecidableEq, Repr

-- Go strings.Contains: does the second string occur as a substring of the
-- first?
def strContains (s pat : String) : Bool :=
  s.toList.tails.any (fun t => pat.toList.isPrefixOf t)

-- The error-message fragment every Delete matches on, built with the
-- resource's own ID exactly as in the Go fmt.Sprintf call.
def notExistMsg (id : String) : String :=
  "Invalid parameter id value=" ++ id ++
    " due to incorrect long value format, or entity does not exist"

-- Base64 (Go encoding/base64 StdEncoding), used by getUserData.

def b64AlphabetList : List Char :=
  "ABCDEFGHIJKLMNOPQRSTUVWXYZabcdefghijklmnopqrstuvwxyz0123456789+/".toList

def b64Char (n : Nat) : Char := b64AlphabetList.getD n 'A'

def b64ValidChar (c : Char) : Bool := b64AlphabetList.contains c

-- Validity of a padded base64 stream as Go's StdEncoding.DecodeString checks
-- it: quanta of four characters, padding only in the final quantum and only
-- in its last one or two positions ("xx==" or "xxx=").  Go's decoder does not
-- check trailing bits (StdEncoding is not strict), so validity depends only
-- on the character structure.
def b64ValidGroups : List Char → Bool
  | [] => true
  | a :: b :: c :: d :: rest =>
      if rest.isEmpty then
        b64ValidChar a && b64ValidChar b &&
          ((b64ValidChar c && (b64ValidChar d || d == '=')) || (c == '=' && d == '='))
      else
        b64ValidChar a && b64ValidChar b && b64ValidChar c && b64ValidChar d &&
          b64ValidGroups rest
  | _ => false

-- Go's base64 decoder ignores carriage returns and newlines anywhere in the
-- input.
def stripNewlines (s : String) : List Char :=
  s.toList.filter (fun c => !(c == '\r' || c == '\n'))

def goBase64DecodeOk (s : String) : Bool := b64ValidGroups (stripNewlines s)

-- Standard base64 encoding of a byte list (three bytes to four characters,
-- padded with = signs).
def b64EncodeBytes : List Nat → List Char
  | [] => []
  | [x] => [b64Char (x / 4), b64Char (x % 4 * 16), '=', '=']
  | [x, y] => [b64Char (x / 4), b64Char (x % 4 * 16 + y / 16), b64Char (y % 16 * 4), '=']
  | x :: y :: z :: rest =>
      b64Char (x / 4) :: b64Char (x % 4 * 16 + y / 16) :: b64Char (y % 16 * 4 + z / 64) ::
        b64Char (z % 64) :: b64EncodeBytes rest

-- UTF-8 encoding of a single character as a list of byte values (what Go's
-- []byte(s) conversion produces for each rune).
def charUTF8 (c : Char) : List Nat :=
  let v := c.toNat
  if v ≤ 0x7f then [v]
  else if v ≤ 0x7ff then [0xc0 + v / 64, 0x80 + v % 64]
  else if v ≤ 0xffff then [0xe0 + v / 4096, 0x80 + v / 64 % 64, 0x80 + v % 64]
  else [0xf0 + v / 262144, 0x80 + v / 4096 % 64, 0x80 + v / 64 % 64, 0x80 + v % 64]

def utf8Bytes (s : String) : List Nat := s.data.flatMap charUTF8

-- Go base64.StdEncoding.EncodeToString([]byte(s)): encode the UTF-8 bytes.
def base64Encode (s : String) : String :=
  String.mk (b64EncodeBytes (utf8Bytes s))

-- getUserData (resource_cloudstack_instance.go): if the supplied string does
-- not decode as base64 it is replaced by the base64 encoding of itself; the
-- error result is always nil.
def getUserData (userData : String) : String × Option String :=
  let ud := userData
  if goBase64DecodeOk ud then (ud, none) else (base64Encode userData, none)

-- Bounded retry helper.
/-- Modelled from the spec: the repository's generic Retry helper is not part
of the provided sources (only its call sites are).  Per spec section 4.6 it
invokes the operation up to maxAttempts times with a fixed inter-attempt
delay, returns on the first success, and after exhausting the attempts
returns the last error.  The operation is modelled as a function from the
attempt index to that attempt's outcome. -/
def Retry {α : Type} : Nat → (Nat → Except String α) → Except String α
  | 0, f => f 0
  | n + 1, f =>
      match f 0 with
      | Except.ok a => Except.ok a
      | Except.error e => if n = 0 then Except.error e else Retry n (fun i => f (i + 1))

-- Disk/volume controller: detach.

-- The subset of the remote volume entity the detach path inspects.
structure VolumeInfo where
  virtualmachineid : String
  deriving DecidableEq, Repr

-- Outcomes of the calls the detach path can issue, one field per call site.
structure DiskDetachOracle where
  getVolume : Except String VolumeInfo
  detachVolume : Except String Unit
  stopVM : Except String Unit
  detachVolumeRetry : Except String Unit
  startVM : Except String Unit

-- isAttached (resource_cloudstack_disk.go): look the volume up and report
-- whether it carries a virtual machine ID.
def isAttached (o : DiskDetachOracle) : Except String Bool :=
  match o.getVolume with
  | Except.error e => Except.error e
  | Except.ok v => Except.ok (v.virtualmachineid != "")

-- resourceCloudStackDiskDetach: if the volume is attached, issue DetachVolume;
-- on failure and with a virtual_machine_id in state, stop the VM, retry the
-- detach, and restart the VM.  The Go function's final `return err` returns
-- the OUTER err variable (the original DetachVolume error): the stop, retry
-- and start calls each declare a shadowing err inside their if statements, so
-- a fully successful compensating sequence still returns the original error.
def resourceCloudStackDiskDetach (vmIdInState : Option String)
    (o : DiskDetachOracle) : List Call × Option String :=
  match isAttached o with
  | Except.error e => ([Call.GetVolumeByID], some e)
  | Except.ok attached =>
      if !attached then ([Call.GetVolumeByID], none)
      else
        match o.detachVolume with
        | Except.ok _ => ([Call.GetVolumeByID, Call.DetachVolume], none)
        | Except.error err =>
            match vmIdInState with
            | none => ([Call.GetVolumeByID, Call.DetachVolume], some err)
            | some _ =>
                match o.stopVM with
                | Except.error e2 =>
                    ([Call.GetVolumeByID, Call.DetachVolume, Call.StopVirtualMachine], some e2)
                | Except.ok _ =>
                    match o.detachVolumeRetry with
                    | Except.error e3 =>
                        ([Call.GetVolumeByID, Call.DetachVolume, Call.StopVirtualMachine,
                          Call.DetachVolume], some e3)
                    | Except.ok _ =>
                        match o.startVM with
                        | Except.error e4 =>
                            ([Call.GetVolumeByID, Call.DetachVolume, Call.StopVirtualMachine,
                              Call.DetachVolume, Call.StartVirtualMachine], some e4)
                        | Except.ok _ =>
                            ([Call.GetVolumeByID, Call.DetachVolume, Call.StopVirtualMachine,
                              Call.DetachVolume, Call.StartVirtualMachine], some err)

-- resourceCloudStackInstanceDelete: destroy the VM (optionally expunging) and
-- treat the entity-gone error message as success.
def resourceCloudStackInstanceDelete (id : String) (_expunge : Bool)
    (destroyRes : Except String Unit) : Option String :=
  match destroyRes with
  | Except.ok _ => none
  | Except.error err =>
      if strContains err (notExistMsg id) then none
      else some ("Error destroying instance: " ++ err)

-- resourceCloudStackDiskDelete: detach first (propagating its error), then
-- delete the volume, treating the entity-gone message as success.  A non
-- matching delete error is returned unwrapped.
def resourceCloudStackDiskDelete (id : String) (vmIdInState : Option String)
    (detachOracle : DiskDetachOracle) (deleteRes : Except String Unit) :
    Option String :=
  match (resourceCloudStackDiskDetach vmIdInState detachOracle).2 with
  | some e => some e
  | none =>
      match deleteRes with
      | Except.ok _ => none
      | Except.error err =>
          if strContains err (notExistMsg id) then none else some err

-- resourceCloudStackNetworkDelete.
def resourceCloudStackNetworkDelete (id name : String)
    (deleteRes : Except String Unit) : Option String :=
  match deleteRes with
  | Except.ok _ => none
  | Except.error err =>
      if strContains err (notExistMsg id) then none
      else some ("Error deleting network " ++ name ++ ": " ++ err)

-- resourceCloudStackVPCDelete.
def resourceCloudStackVPCDelete (id name : String)
    (deleteRes : Except String Unit) : Option String :=
  match deleteRes with
  | Except.ok _ => none
  | Except.error err =>
      if strContains err (notExistMsg id) then none
      else some ("Error deleting VPC " ++ name ++ ": " ++ err)

-- resourceCloudStackPrivateGatewayDelete.
def resourceCloudStackPrivateGatewayDelete (id : String)
    (deleteRes : Except String Unit) : Option String :=
  match deleteRes with
  | Except.ok _ => none
  | Except.error err =>
      if strContains err (notExistMsg id) then none
      else some ("Error deleting private gateway " ++ id ++ ": " ++ err)

-- resourceCloudStackNetworkACLDelete: the delete call is wrapped in
-- Retry(3, ...); the entity-gone check applies to the error Retry returns.
def resourceCloudStackNetworkACLDelete (id name : String)
    (deleteAttempts : Nat → Except String Unit) : Option String :=
  match Retry 3 deleteAttempts with
  | Except.ok _ => none
  | Except.error err =>
      if strContains err (notExistMsg id) then none
      else some ("Error deleting network ACL list " ++ name ++ ": " ++ err)

-- resourceCloudStackVPNCustomerGatewayDelete.
def resourceCloudStackVPNCustomerGatewayDelete (id name : String)
    (deleteRes : Except String Unit) : Option String :=
  match deleteRes with
  | Except.ok _ => none
  | Except.error err =>
      if strContains err (notExistMsg id) then none
      else some ("Error deleting VPN Customer Gateway " ++ name ++ ": " ++ err)

-- Read operations (C5).  The Go SDK lookups return a triple (value, count,
-- err); a lookup outcome is modelled as the Except result together with the
-- reported match count.
structure GoLookup (α : Type) where
  res : Except String α
  count : Nat

-- Result of a Read: the calls issued, the local identity afterwards (none
-- means the ID was cleared), and the returned error.
structure ReadResult where
  trace : List Call
  newId : Option String
  err : Option String
  deriving DecidableEq, Repr

-- One network interface of a virtual machine response.
structure NicInfo where
  networkid : String
  ipaddress : String
  ip6address : String
  ip6cidr : String
  deriving DecidableEq, Repr

-- The subset of the virtual machine entity the instance Read inspects.
structure VMInfo where
  nic : List NicInfo
  deriving DecidableEq, Repr

structure InstanceReadOracle where
  getVM : GoLookup VMInfo
  listVolumes : Except String Unit

-- The instance-local state fields whose updates the claims inspect.
structure InstanceReadState where
  id : String
  networkId : String
  ipAddress : String
  deriving DecidableEq, Repr

structure InstanceReadResult where
  trace : List Call
  newId : Option String
  networkId : String
  ipAddress : String
  err : Option String
  deriving DecidableEq, Repr

-- resourceCloudStackInstanceRead: look the VM up by ID (clearing the local ID
-- and succeeding when the lookup errs with zero matches), guard the NIC access
-- by a length check (network fields are left unchanged when the NIC list is
-- empty), then list the root volume (propagating a listing error).  Pure
-- d.Set calls on fields outside the model are omitted.
def resourceCloudStackInstanceRead (st : InstanceReadState)
    (o : InstanceReadOracle) : InstanceReadResult :=
  match o.getVM.res with
  | Except.error e =>
      if o.getVM.count = 0 then
        { trace := [Call.GetVirtualMachineByID], newId := none,
          networkId := st.networkId, ipAddress := st.ipAddress, err := none }
      else
        { trace := [Call.GetVirtualMachineByID], newId := some st.id,
          networkId := st.networkId, ipAddress := st.ipAddress, err := some e }
  | Except.ok vm =>
      let nid := match vm.nic with
        | [] => st.networkId
        | n :: _ => n.networkid
      let ip := match vm.nic with
        | [] => st.ipAddress
        | n :: _ => n.ipaddress
      match o.listVolumes with
      | Except.error e =>
          { trace := [Call.GetVirtualMachineByID, Call.ListVolumes], newId := some st.id,
            networkId := nid, ipAddress := ip, err := some e }
      | Except.ok _ =>
          { trace := [Call.GetVirtualMachineByID, Call.ListVolumes], newId := some st.id,
            networkId := nid, ipAddress := ip, err := none }

structure DiskReadOracle where
  getVolume : GoLookup Unit

def resourceCloudStackDiskRead (id : String) (o : DiskReadOracle) : ReadResult :=
  match o.getVolume.res with
  | Except.error e =>
      if o.getVolume.count = 0 then ⟨[Call.GetVolumeByID], none, none⟩
      else ⟨[Call.GetVolumeByID], some id, some e⟩
  | Except.ok _ => ⟨[Call.GetVolumeByID], some id, none⟩

structure NetworkReadOracle where
  getNetwork : GoLookup Unit
  getPublicIp : GoLookup Unit

-- resourceCloudStackNetworkRead: after a successful lookup, when the
-- source_nat_ip flag is set the associated public IP is looked up as well; a
-- zero-match failure of that secondary lookup only resets the source-NAT
-- fields and still succeeds.
def resourceCloudStackNetworkRead (id : String) (sourceNatIp : Bool)
    (o : NetworkReadOracle) : ReadResult :=
  match o.getNetwork.res with
  | Except.error e =>
      if o.getNetwork.count = 0 then ⟨[Call.GetNetworkByID], none, none⟩
      else ⟨[Call.GetNetworkByID], some id, some e⟩
  | Except.ok _ =>
      if sourceNatIp then
        match o.getPublicIp.res with
        | Except.error e =>
            if o.getPublicIp.count = 0 then
              ⟨[Call.GetNetworkByID, Call.GetPublicIpAddressByID], some id, none⟩
            else ⟨[Call.GetNetworkByID, Call.GetPublicIpAddressByID], some id, some e⟩
        | Except.ok _ => ⟨[Call.GetNetworkByID, Call.GetPublicIpAddressByID], some id, none⟩
      else ⟨[Call.GetNetworkByID], some id, none⟩

structure VPCReadOracle where
  getVPC : GoLookup Unit
  getVPCOffering : Except String Unit
  listPublicIps : Except String Unit

def resourceCloudStackVPCRead (id : String) (o : VPCReadOracle) : ReadResult :=
  match o.getVPC.res with
  | Except.error e =>
      if o.getVPC.count = 0 then ⟨[Call.GetVPCByID], none, none⟩
      else ⟨[Call.GetVPCByID], some id, some e⟩
  | Except.ok _ =>
      match o.getVPCOffering with
      | Except.error e => ⟨[Call.GetVPCByID, Call.GetVPCOfferingByID], some id, some e⟩
      | Except.ok _ =>
          match o.listPublicIps with
          | Except.error e =>
              ⟨[Call.GetVPCByID, Call.GetVPCOfferingByID, Call.ListPublicIpAddresses],
                some id, some e⟩
          | Except.ok _ =>
              ⟨[Call.GetVPCByID, Call.GetVPCOfferingByID, Call.ListPublicIpAddresses],
                some id, none⟩

structure SecurityGroupReadOracle where
  getSecurityGroup : GoLookup Unit

def resourceCloudStackSecurityGroupRead (id : String)
    (o : SecurityGroupReadOracle) : ReadResult :=
  match o.getSecurityGroup.res with
  | Except.error e =>
      if o.getSecurityGroup.count = 0 then ⟨[Call.GetSecurityGroupByID], none, none⟩
      else ⟨[Call.GetSecurityGroupByID], some id, some e⟩
  | Except.ok _ => ⟨[Call.GetSecurityGroupByID], some id, none⟩

structure AffinityGroupReadOracle where
  getAffinityGroup : GoLookup Unit

def resourceCloudStackAffinityGroupRead (id : String)
    (o : AffinityGroupReadOracle) : ReadResult :=
  match o.getAffinityGroup.res with
  | Except.error e =>
      if o.getAffinityGroup.count = 0 then ⟨[Call.GetAffinityGroupByID], none, none⟩
      else ⟨[Call.GetAffinityGroupByID], some id, some e⟩
  | Except.ok _ => ⟨[Call.GetAffinityGroupByID], some id, none⟩

structure NetworkACLReadOracle where
  getNetworkACLList : GoLookup Unit

def resourceCloudStackNetworkACLRead (id : String)
    (o : NetworkACLReadOracle) : ReadResult :=
  match o.getNetworkACLList.res with
  | Except.error e =>
      if o.getNetworkACLList.count = 0 then ⟨[Call.GetNetworkACLListByID], none, none⟩
      else ⟨[Call.GetNetworkACLListByID], some id, some e⟩
  | Except.ok _ => ⟨[Call.GetNetworkACLListByID], some id, none⟩

structure PrivateGatewayReadOracle where
  getPrivateGateway : GoLookup Unit

def resourceCloudStackPrivateGatewayRead (id : String)
    (o : PrivateGatewayReadOracle) : ReadResult :=
  match o.getPrivateGateway.res with
  | Except.error e =>
      if o.getPrivateGateway.count = 0 then ⟨[Call.GetPrivateGatewayByID], none, none⟩
      else ⟨[Call.GetPrivateGatewayByID], some id, some e⟩
  | Except.ok _ => ⟨[Call.GetPrivateGatewayByID], some id, none⟩

structure VPNCustomerGatewayReadOracle where
  getVpnCustomerGateway : GoLookup Unit

def resourceCloudStackVPNCustomerGatewayRead (id : String)
    (o : VPNCustomerGatewayReadOracle) : ReadResult :=
  match o.getVpnCustomerGateway.res with
  | Except.error e =>
      if o.getVpnCustomerGateway.count = 0 then ⟨[Call.GetVpnCustomerGatewayByID], none, none⟩
      else ⟨[Call.GetVpnCustomerGatewayByID], some id, some e⟩
  | Except.ok _ => ⟨[Call.GetVpnCustomerGatewayByID], some id, none⟩

structure PrivateGatewayUpdateOracle where
  replaceACL : Except String Unit
  networkRead : NetworkReadOracle

-- resourceCloudStackPrivateGatewayUpdate: when acl_id changed, replace the
-- network ACL list, then refresh local state.  The Go function's final line is
-- `return resourceCloudStackNetworkRead(d, meta)`: it invokes the NETWORK
-- resource's Read (GetNetworkByID) on the private gateway's own ResourceData
-- instead of resourceCloudStackPrivateGatewayRead.  The gateway's state has no
-- source_nat_ip field, so the network Read sees the zero value false.
def resourceCloudStackPrivateGatewayUpdate (id : String) (aclChanged : Bool)
    (o : PrivateGatewayUpdateOracle) : List Call × Option String :=
  if aclChanged then
    match o.replaceACL with
    | Except.error e => ([Call.ReplaceNetworkACLList], some ("Error replacing ACL: " ++ e))
    | Except.ok _ =>
        let r := resourceCloudStackNetworkRead id false o.networkRead
        (Call.ReplaceNetworkACLList :: r.trace, r.err)
  else
    let r := resourceCloudStackNetworkRead id false o.networkRead
    (r.trace, r.err)

-- Which configuration fields HasChange reports as changed.
structure Changes where
  displayName : Bool
  group : Bool
  name : Bool
  serviceOffering : Bool
  affinityIDs : Bool
  affinityNames : Bool
  keypair : Bool
  keypairs : Bool
  userData : Bool
  tags : Bool
  details : Bool
  deriving DecidableEq, Repr

-- Outcomes of the remote calls the instance Update can issue, one field per
-- call site.
structure InstanceUpdateOracle where
  updateDisplayName : Except String Unit
  updateGroup : Except String Unit
  stopVM : Except String Unit
  updateName : Except String Unit
  retrieveServiceOfferingID : Except String Unit
  changeServiceOffering : Except String Unit
  updateAffinityIDs : Except String Unit
  updateAffinityNames : Except String Unit
  setProjectKeypair : Except String Unit
  resetSSHKey : Except String Unit
  updateUserData : Except String Unit
  startVM : Except String Unit
  updateTags : Except String Unit
  read : InstanceReadOracle

-- Sequential composition with early return: run the continuation only when
-- the first computation returned a nil error, concatenating the call traces.
def andThen (r : List Call × Option String)
    (k : Unit → List Call × Option String) : List Call × Option String :=
  match r with
  | (t, none) => let s := k (); (t ++ s.1, s.2)
  | (t, some e) => (t, some e)

def updDisplayName (ch : Changes) (o : InstanceUpdateOracle) (name : String) :
    List Call × Option String :=
  if ch.displayName then
    match o.updateDisplayName with
    | Except.error e =>
        ([Call.UpdateVirtualMachine],
          some ("Error updating the display name for instance " ++ name ++ ": " ++ e))
    | Except.ok _ => ([Call.UpdateVirtualMachine], none)
  else ([], none)

def updGroup (ch : Changes) (o : InstanceUpdateOracle) (name : String) :
    List Call × Option String :=
  if ch.group then
    match o.updateGroup with
    | Except.error e =>
        ([Call.UpdateVirtualMachine],
          some ("Error updating the group for instance " ++ name ++ ": " ++ e))
    | Except.ok _ => ([Call.UpdateVirtualMachine], none)
  else ([], none)

def updStop (o : InstanceUpdateOracle) (name : String) : List Call × Option String :=
  match o.stopVM with
  | Except.error e =>
      ([Call.StopVirtualMachine],
        some ("Error stopping instance " ++ name ++ " before making changes: " ++ e))
  | Except.ok _ => ([Call.StopVirtualMachine], none)

def updName (ch : Changes) (o : InstanceUpdateOracle) (name : String) :
    List Call × Option String :=
  if ch.name then
    match o.updateName with
    | Except.error e =>
        ([Call.UpdateVirtualMachine],
          some ("Error updating the name for instance " ++ name ++ ": " ++ e))
    | Except.ok _ => ([Call.UpdateVirtualMachine], none)
  else ([], none)

-- Service offering change: resolve the offering ID (a remote lookup whose
-- error is returned as-is via e.Error()), then change the offering.
def updServiceOffering (ch : Changes) (o : InstanceUpdateOracle) (name : String) :
    List Call × Option String :=
  if ch.serviceOffering then
    match o.retrieveServiceOfferingID with
    | Except.error e => ([Call.RetrieveID], some e)
    | Except.ok _ =>
        match o.changeServiceOffering with
        | Except.error e =>
            ([Call.RetrieveID, Call.ChangeServiceForVirtualMachine],
              some ("Error changing the service offering for instance " ++ name ++ ": " ++ e))
        | Except.ok _ => ([Call.RetrieveID, Call.ChangeServiceForVirtualMachine], none)
  else ([], none)

def updAffinityIDs (ch : Changes) (o : InstanceUpdateOracle) (name : String) :
    List Call × Option String :=
  if ch.affinityIDs then
    match o.updateAffinityIDs with
    | Except.error e =>
        ([Call.UpdateVMAffinityGroup],
          some ("Error updating the affinity groups for instance " ++ name ++ ": " ++ e))
    | Except.ok _ => ([Call.UpdateVMAffinityGroup], none)
  else ([], none)

def updAffinityNames (ch : Changes) (o : InstanceUpdateOracle) (name : String) :
    List Call × Option String :=
  if ch.affinityNames then
    match o.updateAffinityNames with
    | Except.error e =>
        ([Call.UpdateVMAffinityGroup],
          some ("Error updating the affinity groups for instance " ++ name ++ ": " ++ e))
    | Except.ok _ => ([Call.UpdateVMAffinityGroup], none)
  else ([], none)

-- Keypair change: setProjectid (a possible project lookup whose error is
-- returned as-is) and then the SSH key reset call.
def updKeypairs (ch : Changes) (o : InstanceUpdateOracle) (name : String) :
    List Call × Option String :=
  if ch.keypair || ch.keypairs then
    match o.setProjectKeypair with
    | Except.error e => ([], some e)
    | Except.ok _ =>
        match o.resetSSHKey with
        | Except.error e =>
            ([Call.ResetSSHKeyForVirtualMachine],
              some ("Error changing the SSH keypair(s) for instance " ++ name ++ ": " ++ e))
        | Except.ok _ => ([Call.ResetSSHKeyForVirtualMachine], none)
  else ([], none)

-- User data change: getUserData (whose error result is checked but always
-- nil, see getUserData_spec) followed by the update call.
def updUserData (ch : Changes) (o : InstanceUpdateOracle) (name userDataValue : String) :
    List Call × Option String :=
  if ch.userData then
    match (getUserData userDataValue).2 with
    | some e => ([], some e)
    | none =>
        match o.updateUserData with
        | Except.error e =>
            ([Call.UpdateVirtualMachine],
              some ("Error updating user_data for instance " ++ name ++ ": " ++ e))
        | Except.ok _ => ([Call.UpdateVirtualMachine], none)
  else ([], none)

-- Start after the reboot-requiring changes; note the Go format string drops
-- the underlying error.
def updStart (o : InstanceUpdateOracle) (name : String) : List Call × Option String :=
  match o.startVM with
  | Except.error _ =>
      ([Call.StartVirtualMachine],
        some ("Error starting instance " ++ name ++ " after making changes"))
  | Except.ok _ => ([Call.StartVirtualMachine], none)

def updTags (ch : Changes) (o : InstanceUpdateOracle) (name : String) :
    List Call × Option String :=
  if ch.tags then
    match o.updateTags with
    | Except.error e =>
        ([Call.UpdateTagsCall],
          some ("Error updating tags on instance " ++ name ++ ": " ++ e))
    | Except.ok _ => ([Call.UpdateTagsCall], none)
  else ([], none)

-- Details change: the source builds an UpdateVirtualMachineParams and sets
-- the details on it but never issues the call (source lines 746-755), so no
-- remote call and no error.
def updDetails (_ch : Changes) : List Call × Option String := ([], none)

-- True when any of the fields that require a stop/start cycle changed.
def rebootChanged (ch : Changes) : Bool :=
  ch.name || ch.serviceOffering || ch.affinityIDs || ch.affinityNames ||
    ch.keypair || ch.keypairs || ch.userData

-- The stop, per-field updates, start sequence guarding reboot-requiring
-- fields.
def rebootBlock (ch : Changes) (o : InstanceUpdateOracle) (name userDataValue : String) :
    List Call × Option String :=
  if rebootChanged ch then
    andThen (updStop o name) fun _ =>
    andThen (updName ch o name) fun _ =>
    andThen (updServiceOffering ch o name) fun _ =>
    andThen (updAffinityIDs ch o name) fun _ =>
    andThen (updAffinityNames ch o name) fun _ =>
    andThen (updKeypairs ch o name) fun _ =>
    andThen (updUserData ch o name userDataValue) fun _ =>
    updStart o name
  else ([], none)

-- resourceCloudStackInstanceUpdate: display name and group updates in place,
-- the reboot block, tags, the (call-less) details block, and the final
-- delegation to resourceCloudStackInstanceRead.
def resourceCloudStackInstanceUpdate (ch : Changes) (o : InstanceUpdateOracle)
    (name userDataValue : String) (st : InstanceReadState) : List Call × Option String :=
  andThen (updDisplayName ch o name) fun _ =>
  andThen (updGroup ch o name) fun _ =>
  andThen (rebootBlock ch o name userDataValue) fun _ =>
  andThen (updTags ch o name) fun _ =>
  andThen (updDetails ch) fun _ =>
  (let r := resourceCloudStackInstanceRead st o.read
   (r.trace, r.err))

-- Supporting lemmas for the C2 ordering argument.

-- The three calls whose relative order claim C2 constrains.
def isSCS : Call → Bool
  | Call.StopVirtualMachine => true
  | Call.ChangeServiceForVirtualMachine => true
  | Call.StartVirtualMachine => true
  | _ => false

def SCSfilter (t : List Call) : List Call := t.filter isSCS

-- Network controller: parseCIDR (C1).

-- An IPv4 address or mask as its four byte values.
structure IPv4 where
  a : Nat
  b : Nat
  c : Nat
  d : Nat
  deriving DecidableEq, Repr

-- fmt.Sprintf of the four bytes in dotted-quad form.
def IPv4.toStr (ip : IPv4) : String :=
  toString ip.a ++ "." ++ toString ip.b ++ "." ++ toString ip.c ++ "." ++ toString ip.d

-- net.CIDRMask(n, 32): the IPv4 netmask with n leading one bits, as bytes.
def cidrMask (n : Nat) : IPv4 :=
  let m := 2 ^ 32 - 2 ^ (32 - n)
  ⟨m / 2 ^ 24 % 256, m / 2 ^ 16 % 256, m / 2 ^ 8 % 256, m % 256⟩

-- Go ip.Mask(msk): bitwise AND, byte by byte.
def ipMask (ip msk : IPv4) : IPv4 :=
  ⟨ip.a &&& msk.a, ip.b &&& msk.b, ip.c &&& msk.c, ip.d &&& msk.d⟩

-- The map parseCIDR builds (netmask and gateway always; startip and endip
-- only when present).
structure CIDRMap where
  netmask : String
  gateway : String
  startip : Option String
  endip : Option String
  deriving DecidableEq, Repr

-- parseCIDR (resource_cloudstack_network.go): compute netmask, gateway,
-- startip, endip from the parsed CIDR (address bytes plus prefix length) and
-- the explicitly configured overrides.  The Go arithmetic is on byte values,
-- so each octet computation wraps modulo 256 exactly as written here; in
-- particular 0xff-msk[3]-1 underflows to 255 when msk[3] is 255.
def parseCIDR (ip : IPv4) (masklen : Nat)
    (gatewayCfg startipCfg endipCfg : Option String)
    (specifyiprange : Bool) : CIDRMap :=
  let msk := cidrMask masklen
  let sub := ipMask ip msk
  { netmask := msk.toStr
    gateway :=
      match gatewayCfg with
      | some g => g
      | none => (IPv4.mk sub.a sub.b sub.c ((sub.d + 1) % 256)).toStr
    startip :=
      match startipCfg with
      | some s => some s
      | none =>
          if specifyiprange then
            some ((IPv4.mk sub.a sub.b sub.c ((sub.d + 2) % 256)).toStr)
          else none
    endip :=
      match endipCfg with
      | some s => some s
      | none =>
          if specifyiprange then
            some ((IPv4.mk ((sub.a + (255 - msk.a)) % 256) ((sub.b + (255 - msk.b)) % 256)
              ((sub.c + (255 - msk.c)) % 256)
              ((sub.d + (255 - msk.d + 255) % 256) % 256)).toStr)
          else none }

-- The 32-bit value of an address.
def IPv4.toNat32 (ip : IPv4) : Nat := ((ip.a * 256 + ip.b) * 256 + ip.c) * 256 + ip.d

-- The address with a given 32-bit value.
def nat32ToIPv4 (x : Nat) : IPv4 :=
  ⟨x / 2 ^ 24 % 256, x / 2 ^ 16 % 256, x / 2 ^ 8 % 256, x % 256⟩

-- Spec-side definitions, following the claim text for comparison with
-- parseCIDR: the subnet base address (the masked address), its broadcast
-- address, and gateway = base + 1, startip = base + 2, endip = broadcast - 1
-- computed in ordinary 32-bit address arithmetic.
def specSubnetBase (ip : IPv4) (masklen : Nat) : Nat :=
  (ipMask ip (cidrMask masklen)).toNat32

def specBroadcast (ip : IPv4) (masklen : Nat) : Nat :=
  specSubnetBase ip masklen + (2 ^ (32 - masklen) - 1)

def specGateway (ip : IPv4) (masklen : Nat) : String :=
  (nat32ToIPv4 (specSubnetBase ip masklen + 1)).toStr

def specStartip (ip : IPv4) (masklen : Nat) : String :=
  (nat32ToIPv4 (specSubnetBase ip masklen + 2)).toStr

def specEndip (ip : IPv4) (masklen : Nat) : String :=
  (nat32ToIPv4 (specBroadcast ip masklen - 1)).toStr

-- Create operations (C7, C10).

-- Result of a Create: calls issued, the local identity afterwards (none when
-- no SetId was reached or the trailing Read cleared it), and the returned
-- error.
structure CreateResult where
  trace : List Call
  newId : Option String
  err : Option String
  deriving DecidableEq, Repr

-- The zone entity attribute the instance create inspects.
structure ZoneInfo where
  networktype : String
  deriving DecidableEq, Repr

-- The deploy response attributes the instance create uses.
structure DeployResponse where
  id : String
  password : String
  nic : List NicInfo
  deriving DecidableEq, Repr

structure InstanceCreateOracle where
  retrieveServiceOfferingID : Except String Unit
  retrieveZoneID : Except String Unit
  getZone : Except String ZoneInfo
  retrieveTemplateID : Except String Unit
  setProject : Except String Unit
  deploy : Except String DeployResponse
  setTags : Except String Unit
  read : InstanceReadOracle

-- Result of the instance Create including the connection info side channel.
structure InstanceCreateResult where
  trace : List Call
  newId : Option String
  connHost : Option String
  err : Option String
  deriving DecidableEq, Repr

-- resourceCloudStackInstanceCreate: resolve the service offering, zone and
-- template, optionally normalize user data, deploy, record the assigned ID,
-- set tags, then read r.Nic[0].Ipaddress for the connection info WITHOUT
-- checking that the NIC list is non-empty (Go panics on an empty list, which
-- the model returns as the undefined outcome none), and finally delegate to
-- resourceCloudStackInstanceRead.  setProjectid failures are returned
-- unwrapped; the network_id and ip_address fields seen by the final Read
-- start out empty.
def resourceCloudStackInstanceCreate (name : String) (userDataCfg : Option String)
    (o : InstanceCreateOracle) : Option InstanceCreateResult :=
  match o.retrieveServiceOfferingID with
  | Except.error e => some ⟨[Call.RetrieveID], none, none, some e⟩
  | Except.ok _ =>
  match o.retrieveZoneID with
  | Except.error e => some ⟨[Call.RetrieveID, Call.RetrieveID], none, none, some e⟩
  | Except.ok _ =>
  match o.getZone with
  | Except.error e =>
      some ⟨[Call.RetrieveID, Call.RetrieveID, Call.GetZoneByID], none, none, some e⟩
  | Except.ok _ =>
  match o.retrieveTemplateID with
  | Except.error e =>
      some ⟨[Call.RetrieveID, Call.RetrieveID, Call.GetZoneByID, Call.RetrieveID],
        none, none, some e⟩
  | Except.ok _ =>
  match o.setProject with
  | Except.error e =>
      some ⟨[Call.RetrieveID, Call.RetrieveID, Call.GetZoneByID, Call.RetrieveID],
        none, none, some e⟩
  | Except.ok _ =>
  match (match userDataCfg with
         | some u => (getUserData u).2
         | none => none) with
  | some e =>
      some ⟨[Call.RetrieveID, Call.RetrieveID, Call.GetZoneByID, Call.RetrieveID],
        none, none, some e⟩
  | none =>
  match o.deploy with
  | Except.error e =>
      some ⟨[Call.RetrieveID, Call.RetrieveID, Call.GetZoneByID, Call.RetrieveID,
        Call.DeployVirtualMachine], none, none,
        some ("Error creating the new instance " ++ name ++ ": " ++ e)⟩
  | Except.ok r =>
  match o.setTags with
  | Except.error e =>
      some ⟨[Call.RetrieveID, Call.RetrieveID, Call.GetZoneByID, Call.RetrieveID,
        Call.DeployVirtualMachine, Call.SetTagsCall], some r.id, none,
        some ("Error setting tags on the new instance " ++ name ++ ": " ++ e)⟩
  | Except.ok _ =>
  match r.nic with
  | [] => none
  | n :: _ =>
      let rd := resourceCloudStackInstanceRead ⟨r.id, "", ""⟩ o.read
      some ⟨[Call.RetrieveID, Call.RetrieveID, Call.GetZoneByID, Call.RetrieveID,
        Call.DeployVirtualMachine, Call.SetTagsCall] ++ rd.trace, rd.newId,
        some n.ipaddress, rd.err⟩

structure DiskAttachOracle where
  getVolume : Except String VolumeInfo
  attachAttempts : Nat → Except String String

-- resourceCloudStackDiskAttach: only acts when a virtual_machine_id is in
-- state; skips when the volume is already attached; the attach call runs
-- through Retry(10, ...) and on success the attach response ID is stored via
-- SetId.  Returns (trace, ID set by the attach if any, error).
def resourceCloudStackDiskAttach (vmIdInState : Option String)
    (o : DiskAttachOracle) : List Call × Option String × Option String :=
  match vmIdInState with
  | none => ([], none, none)
  | some _ =>
      match o.getVolume with
      | Except.error e => ([Call.GetVolumeByID], none, some e)
      | Except.ok v =>
          if v.virtualmachineid != "" then ([Call.GetVolumeByID], none, none)
          else
            match Retry 10 o.attachAttempts with
            | Except.error e =>
                ([Call.GetVolumeByID, Call.AttachVolume], none,
                  some ("Error attaching volume to VM: " ++ e))
            | Except.ok rid => ([Call.GetVolumeByID, Call.AttachVolume], some rid, none)

structure DiskCreateOracle where
  retrieveDiskOfferingID : Except String Unit
  setProject : Except String Unit
  retrieveZoneID : Except String Unit
  createVolume : Except String String
  setTags : Except String Unit
  attach : DiskAttachOracle
  readVolume : DiskReadOracle

-- resourceCloudStackDiskCreate: resolve the disk offering, project and zone,
-- create the volume, record its ID, set tags, optionally attach (which may
-- replace the stored ID with the attach response ID), then delegate to
-- resourceCloudStackDiskRead.
def resourceCloudStackDiskCreate (name : String) (attachFlag : Bool)
    (vmIdInState : Option String) (o : DiskCreateOracle) : CreateResult :=
  match o.retrieveDiskOfferingID with
  | Except.error e => ⟨[Call.RetrieveID], none, some e⟩
  | Except.ok _ =>
  match o.setProject with
  | Except.error e => ⟨[Call.RetrieveID], none, some e⟩
  | Except.ok _ =>
  match o.retrieveZoneID with
  | Except.error e => ⟨[Call.RetrieveID, Call.RetrieveID], none, some e⟩
  | Except.ok _ =>
  match o.createVolume with
  | Except.error e =>
      ⟨[Call.RetrieveID, Call.RetrieveID, Call.CreateVolume], none,
        some ("Error creating the new disk " ++ name ++ ": " ++ e)⟩
  | Except.ok rid =>
  match o.setTags with
  | Except.error e =>
      ⟨[Call.RetrieveID, Call.RetrieveID, Call.CreateVolume, Call.SetTagsCall], some rid,
        some ("Error setting tags on the new disk " ++ name ++ ": " ++ e)⟩
  | Except.ok _ =>
  if attachFlag then
    match resourceCloudStackDiskAttach vmIdInState o.attach with
    | (t, _, some e) =>
        ⟨[Call.RetrieveID, Call.RetrieveID, Call.CreateVolume, Call.SetTagsCall] ++ t,
          some rid,
          some ("Error attaching the new disk " ++ name ++ " to virtual machine: " ++ e)⟩
    | (t, attachedId, none) =>
        let rd := resourceCloudStackDiskRead (attachedId.getD rid) o.readVolume
        ⟨[Call.RetrieveID, Call.RetrieveID, Call.CreateVolume, Call.SetTagsCall] ++ t ++
          rd.trace, rd.newId, rd.err⟩
  else
    let rd := resourceCloudStackDiskRead rid o.readVolume
    ⟨[Call.RetrieveID, Call.RetrieveID, Call.CreateVolume, Call.SetTagsCall] ++ rd.trace,
      rd.newId, rd.err⟩

structure NetworkCreateOracle where
  retrieveNetworkOfferingID : Except String Unit
  retrieveZoneID : Except String Unit
  getNetworkOffering : Except String Unit
  parseCIDRRes : Except String Unit
  setProject : Except String Unit
  createNetwork : Except String String
  setTags : Except String Unit
  associateIp : Except String Unit
  setProjectIp : Except String Unit
  readNetwork : NetworkReadOracle

-- resourceCloudStackNetworkCreate: resolve the offering and zone, fetch the
-- offering (for Specifyipranges), parse the CIDR (parseCIDRRes models a
-- net.ParseCIDR failure), resolve the project, create the network, record the
-- ID, set tags, optionally associate a source-NAT IP, then delegate to
-- resourceCloudStackNetworkRead.
def resourceCloudStackNetworkCreate (name : String) (sourceNatIp : Bool)
    (o : NetworkCreateOracle) : CreateResult :=
  match o.retrieveNetworkOfferingID with
  | Except.error e => ⟨[Call.RetrieveID], none, some e⟩
  | Except.ok _ =>
  match o.retrieveZoneID with
  | Except.error e => ⟨[Call.RetrieveID, Call.RetrieveID], none, some e⟩
  | Except.ok _ =>
  match o.getNetworkOffering with
  | Except.error e =>
      ⟨[Call.RetrieveID, Call.RetrieveID, Call.GetNetworkOfferingByID], none, some e⟩
  | Except.ok _ =>
  match o.parseCIDRRes with
  | Except.error e =>
      ⟨[Call.RetrieveID, Call.RetrieveID, Call.GetNetworkOfferingByID], none, some e⟩
  | Except.ok _ =>
  match o.setProject with
  | Except.error e =>
      ⟨[Call.RetrieveID, Call.RetrieveID, Call.GetNetworkOfferingByID], none, some e⟩
  | Except.ok _ =>
  match o.createNetwork with
  | Except.error e =>
      ⟨[Call.RetrieveID, Call.RetrieveID, Call.GetNetworkOfferingByID,
        Call.CreateNetwork], none,
        some ("Error creating network " ++ name ++ ": " ++ e)⟩
  | Except.ok rid =>
  match o.setTags with
  | Except.error e =>
      ⟨[Call.RetrieveID, Call.RetrieveID, Call.GetNetworkOfferingByID,
        Call.CreateNetwork, Call.SetTagsCall], some rid,
        some ("Error setting tags: " ++ e)⟩
  | Except.ok _ =>
  if sourceNatIp then
    match o.setProjectIp with
    | Except.error e =>
        ⟨[Call.RetrieveID, Call.RetrieveID, Call.GetNetworkOfferingByID,
          Call.CreateNetwork, Call.SetTagsCall], some rid, some e⟩
    | Except.ok _ =>
    match o.associateIp with
    | Except.error e =>
        ⟨[Call.RetrieveID, Call.RetrieveID, Call.GetNetworkOfferingByID,
          Call.CreateNetwork, Call.SetTagsCall, Call.AssociateIpAddress], some rid,
          some ("Error associating a new IP address: " ++ e)⟩
    | Except.ok _ =>
        let rd := resourceCloudStackNetworkRead rid sourceNatIp o.readNetwork
        ⟨[Call.RetrieveID, Call.RetrieveID, Call.GetNetworkOfferingByID,
          Call.CreateNetwork, Call.SetTagsCall, Call.AssociateIpAddress] ++ rd.trace,
          rd.newId, rd.err⟩
  else
    let rd := resourceCloudStackNetworkRead rid sourceNatIp o.readNetwork
    ⟨[Call.RetrieveID, Call.RetrieveID, Call.GetNetworkOfferingByID,
      Call.CreateNetwork, Call.SetTagsCall] ++ rd.trace, rd.newId, rd.err⟩

structure VPCCreateOracle where
  retrieveVPCOfferingID : Except String Unit
  retrieveZoneID : Except String Unit
  setProject : Except String Unit
  createVPC : Except String String
  setTags : Except String Unit
  readVPC : VPCReadOracle

def resourceCloudStackVPCCreate (name : String) (o : VPCCreateOracle) : CreateResult :=
  match o.retrieveVPCOfferingID with
  | Except.error e => ⟨[Call.RetrieveID], none, some e⟩
  | Except.ok _ =>
  match o.retrieveZoneID with
  | Except.error e => ⟨[Call.RetrieveID, Call.RetrieveID], none, some e⟩
  | Except.ok _ =>
  match o.setProject with
  | Except.error e => ⟨[Call.RetrieveID, Call.RetrieveID], none, some e⟩
  | Except.ok _ =>
  match o.createVPC with
  | Except.error e =>
      ⟨[Call.RetrieveID, Call.RetrieveID, Call.CreateVPC], none,
        some ("Error creating VPC " ++ name ++ ": " ++ e)⟩
  | Except.ok rid =>
  match o.setTags with
  | Except.error e =>
      ⟨[Call.RetrieveID, Call.RetrieveID, Call.CreateVPC, Call.SetTagsCall], some rid,
        some ("Error setting tags on the VPC: " ++ e)⟩
  | Except.ok _ =>
      let rd := resourceCloudStackVPCRead rid o.readVPC
      ⟨[Call.RetrieveID, Call.RetrieveID, Call.CreateVPC, Call.SetTagsCall] ++ rd.trace,
        rd.newId, rd.err⟩

structure SecurityGroupCreateOracle where
  setProject : Except String Unit
  createSecurityGroup : Except String String
  readSecurityGroup : SecurityGroupReadOracle

def resourceCloudStackSecurityGroupCreate (name : String)
    (o : SecurityGroupCreateOracle) : CreateResult :=
  match o.setProject with
  | Except.error e => ⟨[], none, some e⟩
  | Except.ok _ =>
  match o.createSecurityGroup with
  | Except.error e =>
      ⟨[Call.CreateSecurityGroup], none,
        some ("Error creating security group " ++ name ++ ": " ++ e)⟩
  | Except.ok rid =>
      let rd := resourceCloudStackSecurityGroupRead rid o.readSecurityGroup
      ⟨[Call.CreateSecurityGroup] ++ rd.trace, rd.newId, rd.err⟩

structure AffinityGroupCreateOracle where
  setProject : Except String Unit
  createAffinityGroup : Except String String
  readAffinityGroup : AffinityGroupReadOracle

def resourceCloudStackAffinityGroupCreate (o : AffinityGroupCreateOracle) : CreateResult :=
  match o.setProject with
  | Except.error e => ⟨[], none, some e⟩
  | Except.ok _ =>
  match o.createAffinityGroup with
  | Except.error e => ⟨[Call.CreateAffinityGroup], none, some e⟩
  | Except.ok rid =>
      let rd := resourceCloudStackAffinityGroupRead rid o.readAffinityGroup
      ⟨[Call.CreateAffinityGroup] ++ rd.trace, rd.newId, rd.err⟩

structure NetworkACLCreateOracle where
  createNetworkACLList : Except String String
  readNetworkACL : NetworkACLReadOracle

def resourceCloudStackNetworkACLCreate (name : String)
    (o : NetworkACLCreateOracle) : CreateResult :=
  match o.createNetworkACLList with
  | Except.error e =>
      ⟨[Call.CreateNetworkACLList], none,
        some ("Error creating network ACL list " ++ name ++ ": " ++ e)⟩
  | Except.ok rid =>
      let rd := resourceCloudStackNetworkACLRead rid o.readNetworkACL
      ⟨[Call.CreateNetworkACLList] ++ rd.trace, rd.newId, rd.err⟩

structure PrivateGatewayCreateOracle where
  retrieveNetworkOfferingID : Except String Unit
  createPrivateGateway : Except String String
  readPrivateGateway : PrivateGatewayReadOracle

-- resourceCloudStackPrivateGatewayCreate: the network offering is resolved
-- only when the network_offering field is non-empty.
def resourceCloudStackPrivateGatewayCreate (ipaddress networkOffering : String)
    (o : PrivateGatewayCreateOracle) : CreateResult :=
  match (if networkOffering != "" then
           match o.retrieveNetworkOfferingID with
           | Except.error e => some e
           | Except.ok _ => none
         else none) with
  | some e => ⟨if networkOffering != "" then [Call.RetrieveID] else [], none, some e⟩
  | none =>
  match o.createPrivateGateway with
  | Except.error e =>
      ⟨(if networkOffering != "" then [Call.RetrieveID] else []) ++
        [Call.CreatePrivateGateway], none,
        some ("Error creating private gateway for " ++ ipaddress ++ ": " ++ e)⟩
  | Except.ok rid =>
      let rd := resourceCloudStackPrivateGatewayRead rid o.readPrivateGateway
      ⟨(if networkOffering != "" then [Call.RetrieveID] else []) ++
        [Call.CreatePrivateGateway] ++ rd.trace, rd.newId, rd.err⟩

structure VPNCustomerGatewayCreateOracle where
  setProject : Except String Unit
  createVpnCustomerGateway : Except String String
  readVpnCustomerGateway : VPNCustomerGatewayReadOracle

def resourceCloudStackVPNCustomerGatewayCreate (name : String)
    (o : VPNCustomerGatewayCreateOracle) : CreateResult :=
  match o.setProject with
  | Except.error e => ⟨[], none, some e⟩
  | Except.ok _ =>
  match o.createVpnCustomerGateway with
  | Except.error e =>
      ⟨[Call.CreateVpnCustomerGateway], none,
        some ("Error creating VPN Customer Gateway " ++ name ++ ": " ++ e)⟩
  | Except.ok rid =>
      let rd := resourceCloudStackVPNCustomerGatewayRead rid o.readVpnCustomerGateway
      ⟨[Call.CreateVpnCustomerGateway] ++ rd.trace, rd.newId, rd.err⟩

-- Configuration validation (C8).

-- The ConflictsWith declarations of the instance schema
-- (resource_cloudstack_instance.go): each mutually exclusive field names its
-- partner; all other fields declare no conflicts.
def instanceConflictsWith (field : String) : List String :=
  if field = "affinity_group_ids" then ["affinity_group_names"]
  else if field = "affinity_group_names" then ["affinity_group_ids"]
  else if field = "security_group_ids" then ["security_group_names"]
  else if field = "security_group_names" then ["security_group_ids"]
  else if field = "keypair" then ["keypairs"]
  else if field = "keypairs" then ["keypair"]
  else []

/-- Modelled from the spec: the enforcement of ConflictsWith metadata is owned
by the external plugin framework, not by code in this repository; per the spec
(sections 4.3 and 8), supplying both members of a declared conflicting pair
"must be rejected by configuration validation before any remote call is
issued".  The validator reports every supplied field together with each of its
declared conflict partners that is also supplied. -/
def validateConflicts (supplied : List String) : List (String × String) :=
  supplied.flatMap (fun f =>
    ((instanceConflictsWith f).filter (fun c => supplied.contains c)).map (fun c => (f, c)))

/-- Modelled from the spec: the framework runs configuration validation before
invoking the Create callback, so a configuration with conflicting fields is
rejected with no remote call issued; otherwise the instance Create runs as
embedded above. -/
def instanceApplyCreate (supplied : List String) (name : String) (u : Option String)
    (o : InstanceCreateOracle) : List Call × Except String (Option InstanceCreateResult) :=
  match validateConflicts supplied with
  | [] =>
      match resourceCloudStackInstanceCreate name u o with
      | none => ([], Except.ok none)
      | some res => (res.trace, Except.ok (some res))
  | (f, c) :: _ => ([], Except.error ("field " ++ f ++ " conflicts with " ++ c))

/-- Claim C6: getUserData returns the standard base64 encoding of any input
that is not valid base64 (for example "hello" becomes "aGVsbG8="), returns any
already-valid base64 input unchanged, and never returns an error. -/
theorem getUserData_spec :
    (∀ s : String, goBase64DecodeOk s = false → getUserData s = (base64Encode s, none)) ∧
    (∀ s : String, goBase64DecodeOk s = true → getUserData s = (s, none)) ∧
    (∀ s : String, (getUserData s).2 = none) ∧
    getUserData "hello" = ("aGVsbG8=", none) ∧
    getUserData "aGVsbG8=" = ("aGVsbG8=", none) := by
  refine ⟨fun s h => ?_, fun s h => ?_, fun s => ?_, by decide, by decide⟩
  · simp [getUserData, h]
  · simp [getUserData, h]
  · by_cases h : goBase64DecodeOk s <;> simp [getUserData, h]

/-- Witness for C6: the implications of getUserData_spec discharged at the
concrete inputs "hello" (not base64) and "aGVsbG8=" (valid base64). -/
theorem getUserData_spec_witness :
    getUserData "hello" = (base64Encode "hello", none) ∧
    getUserData "aGVsbG8=" = ("aGVsbG8=", none) :=
  ⟨getUserData_spec.1 "hello" (by decide), getUserData_spec.2.1 "aGVsbG8=" (by decide)⟩

/-- Claim C3 (code bug): on an attached disk whose direct DetachVolume call
fails while a virtual_machine_id is in state, the controller does perform the
compensating stop, detach-retry, start sequence, but even when all three
compensating calls succeed the operation returns the ORIGINAL detach error
instead of success: the Go code's inner err variables shadow the outer one and
the function ends with `return err` on the outer variable.  Evaluated at a
concrete input. -/
theorem diskDetach_returns_original_error_after_successful_compensation :
    resourceCloudStackDiskDetach (some "vm-1")
      { getVolume := Except.ok { virtualmachineid := "vm-1" }
        detachVolume := Except.error "please power off the VM first"
        stopVM := Except.ok ()
        detachVolumeRetry := Except.ok ()
        startVM := Except.ok () } =
      ([Call.GetVolumeByID, Call.DetachVolume, Call.StopVirtualMachine,
        Call.DetachVolume, Call.StartVirtualMachine],
       some "please power off the VM first") := by
  decide

-- Delete operations (C4).  Each takes the resource's stored ID and the
-- outcome of its remote delete call.

/-- Claim C4: for each of the seven resource kinds (instance, disk, network,
VPC, private gateway, network ACL list, VPN customer gateway), a delete whose
remote call fails with an error containing the entity-gone message built from
the resource's own ID returns success, and a delete whose remote call fails
with any other error returns a failure.  For the disk the claim concerns the
volume delete call, so the preceding detach is assumed to succeed; for the
network ACL list the delete call is retried and the claim concerns the error
the retry wrapper surfaces. -/
theorem delete_idempotent_on_entity_gone :
    ∀ id name err : String, ∀ expunge : Bool,
    ∀ vmIdInState : Option String, ∀ detachOracle : DiskDetachOracle,
    ∀ deleteAttempts : Nat → Except String Unit,
    (strContains err (notExistMsg id) = true →
      resourceCloudStackInstanceDelete id expunge (Except.error err) = none ∧
      ((resourceCloudStackDiskDetach vmIdInState detachOracle).2 = none →
        resourceCloudStackDiskDelete id vmIdInState detachOracle (Except.error err) = none) ∧
      resourceCloudStackNetworkDelete id name (Except.error err) = none ∧
      resourceCloudStackVPCDelete id name (Except.error err) = none ∧
      resourceCloudStackPrivateGatewayDelete id (Except.error err) = none ∧
      (Retry 3 deleteAttempts = Except.error err →
        resourceCloudStackNetworkACLDelete id name deleteAttempts = none) ∧
      resourceCloudStackVPNCustomerGatewayDelete id name (Except.error err) = none) ∧
    (strContains err (notExistMsg id) = false →
      resourceCloudStackInstanceDelete id expunge (Except.error err) =
        some ("Error destroying instance: " ++ err) ∧
      ((resourceCloudStackDiskDetach vmIdInState detachOracle).2 = none →
        resourceCloudStackDiskDelete id vmIdInState detachOracle (Except.error err) = some err) ∧
      resourceCloudStackNetworkDelete id name (Except.error err) =
        some ("Error deleting network " ++ name ++ ": " ++ err) ∧
      resourceCloudStackVPCDelete id name (Except.error err) =
        some ("Error deleting VPC " ++ name ++ ": " ++ err) ∧
      resourceCloudStackPrivateGatewayDelete id (Except.error err) =
        some ("Error deleting private gateway " ++ id ++ ": " ++ err) ∧
      (Retry 3 deleteAttempts = Except.error err →
        resourceCloudStackNetworkACLDelete id name deleteAttempts =
          some ("Error deleting network ACL list " ++ name ++ ": " ++ err)) ∧
      resourceCloudStackVPNCustomerGatewayDelete id name (Except.error err) =
        some ("Error deleting VPN Customer Gateway " ++ name ++ ": " ++ err)) := by
  intro id name err expunge vmIdInState detachOracle deleteAttempts
  constructor
  · intro h
    refine ⟨?_, ?_, ?_, ?_, ?_, ?_, ?_⟩
    · simp [resourceCloudStackInstanceDelete, h]
    · intro hd
      simp [resourceCloudStackDiskDelete, hd, h]
    · simp [resourceCloudStackNetworkDelete, h]
    · simp [resourceCloudStackVPCDelete, h]
    · simp [resourceCloudStackPrivateGatewayDelete, h]
    · intro hr
      simp [resourceCloudStackNetworkACLDelete, hr, h]
    · simp [resourceCloudStackVPNCustomerGatewayDelete, h]
  · intro h
    refine ⟨?_, ?_, ?_, ?_, ?_, ?_, ?_⟩
    · simp [resourceCloudStackInstanceDelete, h]
    · intro hd
      simp [resourceCloudStackDiskDelete, hd, h]
    · simp [resourceCloudStackNetworkDelete, h]
    · simp [resourceCloudStackVPCDelete, h]
    · simp [resourceCloudStackPrivateGatewayDelete, h]
    · intro hr
      simp [resourceCloudStackNetworkACLDelete, hr, h]
    · simp [resourceCloudStackVPNCustomerGatewayDelete, h]

/-- Witness for C4: both branches of delete_idempotent_on_entity_gone applied
at concrete inputs: an error that is exactly the entity-gone message for id
"42", and an unrelated error. -/
theorem delete_idempotent_on_entity_gone_witness :
    (strContains (notExistMsg "42") (notExistMsg "42") = true ∧
      resourceCloudStackInstanceDelete "42" false (Except.error (notExistMsg "42")) = none) ∧
    (strContains "quota exceeded" (notExistMsg "42") = false ∧
      resourceCloudStackNetworkDelete "42" "net1" (Except.error "quota exceeded") =
        some ("Error deleting network net1: quota exceeded")) := by
  constructor
  · exact ⟨by decide,
      ((delete_idempotent_on_entity_gone "42" "net1" (notExistMsg "42") false none
        { getVolume := Except.ok { virtualmachineid := "" }
          detachVolume := Except.ok (), stopVM := Except.ok ()
          detachVolumeRetry := Except.ok (), startVM := Except.ok () }
        (fun _ => Except.ok ())).1 (by decide)).1⟩
  · exact ⟨by decide,
      ((delete_idempotent_on_entity_gone "42" "net1" "quota exceeded" false none
        { getVolume := Except.ok { virtualmachineid := "" }
          detachVolume := Except.ok (), stopVM := Except.ok ()
          detachVolumeRetry := Except.ok (), startVM := Except.ok () }
        (fun _ => Except.ok ())).2 (by decide)).2.2.1⟩

/-- Claim C5: for every resource kind's Read, a by-ID lookup that errs while
reporting zero matches clears the local identity and succeeds, while a lookup
error with a nonzero match count is returned with the identity intact. -/
theorem read_zero_count_clears_identity :
    ∀ (id e : String),
    (∀ (st : InstanceReadState) (o : InstanceReadOracle), o.getVM.res = Except.error e →
      (o.getVM.count = 0 →
        (resourceCloudStackInstanceRead st o).newId = none ∧
        (resourceCloudStackInstanceRead st o).err = none) ∧
      (o.getVM.count ≠ 0 →
        (resourceCloudStackInstanceRead st o).newId = some st.id ∧
        (resourceCloudStackInstanceRead st o).err = some e)) ∧
    (∀ o : DiskReadOracle, o.getVolume.res = Except.error e →
      (o.getVolume.count = 0 → resourceCloudStackDiskRead id o =
        ⟨[Call.GetVolumeByID], none, none⟩) ∧
      (o.getVolume.count ≠ 0 → resourceCloudStackDiskRead id o =
        ⟨[Call.GetVolumeByID], some id, some e⟩)) ∧
    (∀ (sourceNatIp : Bool) (o : NetworkReadOracle), o.getNetwork.res = Except.error e →
      (o.getNetwork.count = 0 → resourceCloudStackNetworkRead id sourceNatIp o =
        ⟨[Call.GetNetworkByID], none, none⟩) ∧
      (o.getNetwork.count ≠ 0 → resourceCloudStackNetworkRead id sourceNatIp o =
        ⟨[Call.GetNetworkByID], some id, some e⟩)) ∧
    (∀ o : VPCReadOracle, o.getVPC.res = Except.error e →
      (o.getVPC.count = 0 → resourceCloudStackVPCRead id o =
        ⟨[Call.GetVPCByID], none, none⟩) ∧
      (o.getVPC.count ≠ 0 → resourceCloudStackVPCRead id o =
        ⟨[Call.GetVPCByID], some id, some e⟩)) ∧
    (∀ o : SecurityGroupReadOracle, o.getSecurityGroup.res = Except.error e →
      (o.getSecurityGroup.count = 0 → resourceCloudStackSecurityGroupRead id o =
        ⟨[Call.GetSecurityGroupByID], none, none⟩) ∧
      (o.getSecurityGroup.count ≠ 0 → resourceCloudStackSecurityGroupRead id o =
        ⟨[Call.GetSecurityGroupByID], some id, some e⟩)) ∧
    (∀ o : AffinityGroupReadOracle, o.getAffinityGroup.res = Except.error e →
      (o.getAffinityGroup.count = 0 → resourceCloudStackAffinityGroupRead id o =
        ⟨[Call.GetAffinityGroupByID], none, none⟩) ∧
      (o.getAffinityGroup.count ≠ 0 → resourceCloudStackAffinityGroupRead id o =
        ⟨[Call.GetAffinityGroupByID], some id, some e⟩)) ∧
    (∀ o : NetworkACLReadOracle, o.getNetworkACLList.res = Except.error e →
      (o.getNetworkACLList.count = 0 → resourceCloudStackNetworkACLRead id o =
        ⟨[Call.GetNetworkACLListByID], none, none⟩) ∧
      (o.getNetworkACLList.count ≠ 0 → resourceCloudStackNetworkACLRead id o =
        ⟨[Call.GetNetworkACLListByID], some id, some e⟩)) ∧
    (∀ o : PrivateGatewayReadOracle, o.getPrivateGateway.res = Except.error e →
      (o.getPrivateGateway.count = 0 → resourceCloudStackPrivateGatewayRead id o =
        ⟨[Call.GetPrivateGatewayByID], none, none⟩) ∧
      (o.getPrivateGateway.count ≠ 0 → resourceCloudStackPrivateGatewayRead id o =
        ⟨[Call.GetPrivateGatewayByID], some id, some e⟩)) ∧
    (∀ o : VPNCustomerGatewayReadOracle, o.getVpnCustomerGateway.res = Except.error e →
      (o.getVpnCustomerGateway.count = 0 → resourceCloudStackVPNCustomerGatewayRead id o =
        ⟨[Call.GetVpnCustomerGatewayByID], none, none⟩) ∧
      (o.getVpnCustomerGateway.count ≠ 0 → resourceCloudStackVPNCustomerGatewayRead id o =
        ⟨[Call.GetVpnCustomerGatewayByID], some id, some e⟩)) := by
  intro id e
  refine ⟨fun st o h => ⟨fun hc => ?_, fun hc => ?_⟩,
    fun o h => ⟨fun hc => ?_, fun hc => ?_⟩, fun b o h => ⟨fun hc => ?_, fun hc => ?_⟩,
    fun o h => ⟨fun hc => ?_, fun hc => ?_⟩, fun o h => ⟨fun hc => ?_, fun hc => ?_⟩,
    fun o h => ⟨fun hc => ?_, fun hc => ?_⟩, fun o h => ⟨fun hc => ?_, fun hc => ?_⟩,
    fun o h => ⟨fun hc => ?_, fun hc => ?_⟩, fun o h => ⟨fun hc => ?_, fun hc => ?_⟩⟩ <;>
  simp_all [resourceCloudStackInstanceRead, resourceCloudStackDiskRead,
    resourceCloudStackNetworkRead, resourceCloudStackVPCRead,
    resourceCloudStackSecurityGroupRead, resourceCloudStackAffinityGroupRead,
    resourceCloudStackNetworkACLRead, resourceCloudStackPrivateGatewayRead,
    resourceCloudStackVPNCustomerGatewayRead]

/-- Witness for C5: the disk Read applied at a concrete zero-match failing
lookup (identity cleared, success) and at a concrete one-match failing lookup
(error returned). -/
theorem read_zero_count_clears_identity_witness :
    resourceCloudStackDiskRead "vol-7" { getVolume := ⟨Except.error "gone", 0⟩ } =
      ⟨[Call.GetVolumeByID], none, none⟩ ∧
    resourceCloudStackDiskRead "vol-7" { getVolume := ⟨Except.error "boom", 1⟩ } =
      ⟨[Call.GetVolumeByID], some "vol-7", some "boom"⟩ :=
  ⟨((read_zero_count_clears_identity "vol-7" "gone").2.1
      { getVolume := ⟨Except.error "gone", 0⟩ } rfl).1 rfl,
   ((read_zero_count_clears_identity "vol-7" "boom").2.1
      { getVolume := ⟨Except.error "boom", 1⟩ } rfl).2 (by decide)⟩

-- Private gateway controller: Update (C9).

/-- Claim C9 (code bug): after replacing the ACL, the private gateway Update
refreshes state through the NETWORK resource's Read (issuing GetNetworkByID on
the gateway's ID) and never issues GetPrivateGatewayByID, contradicting the
claim that it invokes the private gateway's own Read.  Evaluated at a concrete
input: acl_id changed, ACL replacement succeeds, the network lookup succeeds. -/
theorem privateGatewayUpdate_refreshes_via_network_read :
    (resourceCloudStackPrivateGatewayUpdate "pg-1" true
        { replaceACL := Except.ok ()
          networkRead := { getNetwork := ⟨Except.ok (), 1⟩, getPublicIp := ⟨Except.ok (), 1⟩ } }).1 =
      [Call.ReplaceNetworkACLList, Call.GetNetworkByID] ∧
    Call.GetNetworkByID ∈ (resourceCloudStackPrivateGatewayUpdate "pg-1" true
        { replaceACL := Except.ok ()
          networkRead := { getNetwork := ⟨Except.ok (), 1⟩, getPublicIp := ⟨Except.ok (), 1⟩ } }).1 ∧
    Call.GetPrivateGatewayByID ∉ (resourceCloudStackPrivateGatewayUpdate "pg-1" true
        { replaceACL := Except.ok ()
          networkRead := { getNetwork := ⟨Except.ok (), 1⟩, getPublicIp := ⟨Except.ok (), 1⟩ } }).1 := by
  refine ⟨rfl, ?_, ?_⟩ <;> decide

-- Instance controller: Update (C2).

-- getUserData always returns a nil error.
theorem getUserData_err_none (s : String) : (getUserData s).2 = none := by
  by_cases h : goBase64DecodeOk s <;> simp [getUserData, h]

theorem SCSfilter_andThen (r : List Call × Option String)
    (k : Unit → List Call × Option String) :
    SCSfilter (andThen r k).1 =
      SCSfilter r.1 ++ (if r.2 = none then SCSfilter ((k ()).1) else []) := by
  rcases r with ⟨t, res⟩
  cases res <;> simp [andThen, SCSfilter, List.filter_append]

theorem andThen_snd (r : List Call × Option String)
    (k : Unit → List Call × Option String) :
    (andThen r k).2 = if r.2 = none then (k ()).2 else r.2 := by
  rcases r with ⟨t, res⟩
  cases res <;> simp [andThen]

theorem SCSfilter_updDisplayName (ch : Changes) (o : InstanceUpdateOracle) (n : String) :
    SCSfilter (updDisplayName ch o n).1 = [] := by
  cases hc : ch.displayName <;> cases hr : o.updateDisplayName <;>
    simp [updDisplayName, SCSfilter, hc, hr, isSCS]

theorem SCSfilter_updGroup (ch : Changes) (o : InstanceUpdateOracle) (n : String) :
    SCSfilter (updGroup ch o n).1 = [] := by
  cases hc : ch.group <;> cases hr : o.updateGroup <;>
    simp [updGroup, SCSfilter, hc, hr, isSCS]

theorem SCSfilter_updName (ch : Changes) (o : InstanceUpdateOracle) (n : String) :
    SCSfilter (updName ch o n).1 = [] := by
  cases hc : ch.name <;> cases hr : o.updateName <;>
    simp [updName, SCSfilter, hc, hr, isSCS]

theorem SCSfilter_updAffinityIDs (ch : Changes) (o : InstanceUpdateOracle) (n : String) :
    SCSfilter (updAffinityIDs ch o n).1 = [] := by
  cases hc : ch.affinityIDs <;> cases hr : o.updateAffinityIDs <;>
    simp [updAffinityIDs, SCSfilter, hc, hr, isSCS]

theorem SCSfilter_updAffinityNames (ch : Changes) (o : InstanceUpdateOracle) (n : String) :
    SCSfilter (updAffinityNames ch o n).1 = [] := by
  cases hc : ch.affinityNames <;> cases hr : o.updateAffinityNames <;>
    simp [updAffinityNames, SCSfilter, hc, hr, isSCS]

theorem SCSfilter_updKeypairs (ch : Changes) (o : InstanceUpdateOracle) (n : String) :
    SCSfilter (updKeypairs ch o n).1 = [] := by
  by_cases hc : (ch.keypair || ch.keypairs) = true <;>
    cases hp : o.setProjectKeypair <;> cases hr : o.resetSSHKey <;>
      simp [updKeypairs, SCSfilter, hc, hp, hr, isSCS]

theorem SCSfilter_updUserData (ch : Changes) (o : InstanceUpdateOracle) (n u : String) :
    SCSfilter (updUserData ch o n u).1 = [] := by
  cases hc : ch.userData <;> cases hr : o.updateUserData <;>
    simp [updUserData, SCSfilter, hc, hr, isSCS, getUserData_err_none]

theorem SCSfilter_updTags (ch : Changes) (o : InstanceUpdateOracle) (n : String) :
    SCSfilter (updTags ch o n).1 = [] := by
  cases hc : ch.tags <;> cases hr : o.updateTags <;>
    simp [updTags, SCSfilter, hc, hr, isSCS]

theorem SCSfilter_updStop (o : InstanceUpdateOracle) (n : String) :
    SCSfilter (updStop o n).1 = [Call.StopVirtualMachine] := by
  cases hr : o.stopVM <;> simp [updStop, SCSfilter, hr, isSCS]

theorem SCSfilter_updStart (o : InstanceUpdateOracle) (n : String) :
    SCSfilter (updStart o n).1 = [Call.StartVirtualMachine] := by
  cases hr : o.startVM <;> simp [updStart, SCSfilter, hr, isSCS]

theorem SCSfilter_read (st : InstanceReadState) (o : InstanceReadOracle) :
    SCSfilter (resourceCloudStackInstanceRead st o).trace = [] := by
  rcases o with ⟨⟨res, cnt⟩, lv⟩
  cases res <;> cases lv <;>
    simp [resourceCloudStackInstanceRead, SCSfilter, isSCS] <;>
    split <;> simp [SCSfilter, isSCS]

theorem updDisplayName_snd (ch : Changes) (o : InstanceUpdateOracle) (n : String)
    (h : o.updateDisplayName = Except.ok ()) : (updDisplayName ch o n).2 = none := by
  cases hc : ch.displayName <;> simp [updDisplayName, hc, h]

theorem updGroup_snd (ch : Changes) (o : InstanceUpdateOracle) (n : String)
    (h : o.updateGroup = Except.ok ()) : (updGroup ch o n).2 = none := by
  cases hc : ch.group <;> simp [updGroup, hc, h]

theorem updStop_snd (o : InstanceUpdateOracle) (n : String)
    (h : o.stopVM = Except.ok ()) : (updStop o n).2 = none := by
  simp [updStop, h]

theorem updName_snd (ch : Changes) (o : InstanceUpdateOracle) (n : String)
    (h : o.updateName = Except.ok ()) : (updName ch o n).2 = none := by
  cases hc : ch.name <;> simp [updName, hc, h]

theorem updServiceOffering_ok (ch : Changes) (o : InstanceUpdateOracle) (n : String)
    (hso : ch.serviceOffering = true) (hr : o.retrieveServiceOfferingID = Except.ok ())
    (hc : o.changeServiceOffering = Except.ok ()) :
    updServiceOffering ch o n =
      ([Call.RetrieveID, Call.ChangeServiceForVirtualMachine], none) := by
  simp [updServiceOffering, hso, hr, hc]

theorem updAffinityIDs_snd (ch : Changes) (o : InstanceUpdateOracle) (n : String)
    (h : o.updateAffinityIDs = Except.ok ()) : (updAffinityIDs ch o n).2 = none := by
  cases hc : ch.affinityIDs <;> simp [updAffinityIDs, hc, h]

theorem updAffinityNames_snd (ch : Changes) (o : InstanceUpdateOracle) (n : String)
    (h : o.updateAffinityNames = Except.ok ()) : (updAffinityNames ch o n).2 = none := by
  cases hc : ch.affinityNames <;> simp [updAffinityNames, hc, h]

theorem updKeypairs_snd (ch : Changes) (o : InstanceUpdateOracle) (n : String)
    (h1 : o.setProjectKeypair = Except.ok ()) (h2 : o.resetSSHKey = Except.ok ()) :
    (updKeypairs ch o n).2 = none := by
  by_cases hc : (ch.keypair || ch.keypairs) = true <;> simp [updKeypairs, hc, h1, h2]

theorem updUserData_snd (ch : Changes) (o : InstanceUpdateOracle) (n u : String)
    (h : o.updateUserData = Except.ok ()) : (updUserData ch o n u).2 = none := by
  cases hc : ch.userData <;> simp [updUserData, hc, h, getUserData_err_none]

theorem updStart_err (o : InstanceUpdateOracle) (n e : String)
    (h : o.startVM = Except.error e) :
    updStart o n =
      ([Call.StartVirtualMachine],
        some ("Error starting instance " ++ n ++ " after making changes")) := by
  simp [updStart, h]

-- Ordering of the stop, change-offering, start calls inside the reboot block.
theorem SCSfilter_rebootBlock (ch : Changes) (o : InstanceUpdateOracle)
    (name udv : String) (hso : ch.serviceOffering = true) :
    SCSfilter (rebootBlock ch o name udv).1 = [] ∨
    SCSfilter (rebootBlock ch o name udv).1 = [Call.StopVirtualMachine] ∨
    SCSfilter (rebootBlock ch o name udv).1 =
      [Call.StopVirtualMachine, Call.ChangeServiceForVirtualMachine] ∨
    SCSfilter (rebootBlock ch o name udv).1 =
      [Call.StopVirtualMachine, Call.ChangeServiceForVirtualMachine,
        Call.StartVirtualMachine] := by
  have hrb : rebootChanged ch = true := by simp [rebootChanged, hso]
  rcases hret : o.retrieveServiceOfferingID with e1 | u1 <;>
    rcases hchg : o.changeServiceOffering with e2 | u2 <;>
      simp only [rebootBlock, hrb, if_true, SCSfilter_andThen, SCSfilter_updStop,
        SCSfilter_updName, SCSfilter_updAffinityIDs, SCSfilter_updAffinityNames,
        SCSfilter_updKeypairs, SCSfilter_updUserData, SCSfilter_updStart,
        updServiceOffering, hso, hret, hchg, List.nil_append, List.append_nil,
        ite_self] <;>
      split_ifs <;> simp_all [SCSfilter, isSCS]

theorem SCSfilter_nil : SCSfilter [] = [] := rfl

/-- Claim C2: in every instance Update in which service_offering changed, the
stop, change-service-offering and start calls occur in that order (the
subtrace of the update's call trace on these three calls is always a prefix of
stop, change, start); and when every call up to and including the offering
change succeeds but the start call fails, the Update returns the start error
and the trace still shows exactly the single stop, change, start sequence: the
offering change is neither re-issued nor rolled back. -/
theorem instanceUpdate_stop_change_start_order :
    ∀ (ch : Changes) (o : InstanceUpdateOracle) (name udv : String)
      (st : InstanceReadState),
    ch.serviceOffering = true →
    (SCSfilter (resourceCloudStackInstanceUpdate ch o name udv st).1 = [] ∨
     SCSfilter (resourceCloudStackInstanceUpdate ch o name udv st).1 =
       [Call.StopVirtualMachine] ∨
     SCSfilter (resourceCloudStackInstanceUpdate ch o name udv st).1 =
       [Call.StopVirtualMachine, Call.ChangeServiceForVirtualMachine] ∨
     SCSfilter (resourceCloudStackInstanceUpdate ch o name udv st).1 =
       [Call.StopVirtualMachine, Call.ChangeServiceForVirtualMachine,
         Call.StartVirtualMachine]) ∧
    (∀ e : String,
      o.updateDisplayName = Except.ok () → o.updateGroup = Except.ok () →
      o.stopVM = Except.ok () → o.updateName = Except.ok () →
      o.retrieveServiceOfferingID = Except.ok () →
      o.changeServiceOffering = Except.ok () →
      o.updateAffinityIDs = Except.ok () → o.updateAffinityNames = Except.ok () →
      o.setProjectKeypair = Except.ok () → o.resetSSHKey = Except.ok () →
      o.updateUserData = Except.ok () →
      o.startVM = Except.error e →
      (resourceCloudStackInstanceUpdate ch o name udv st).2 =
        some ("Error starting instance " ++ name ++ " after making changes") ∧
      SCSfilter (resourceCloudStackInstanceUpdate ch o name udv st).1 =
        [Call.StopVirtualMachine, Call.ChangeServiceForVirtualMachine,
          Call.StartVirtualMachine]) := by
  intro ch o name udv st hso
  constructor
  · simp only [resourceCloudStackInstanceUpdate, SCSfilter_andThen,
      SCSfilter_updDisplayName, SCSfilter_updGroup, SCSfilter_updTags,
      updDetails, SCSfilter_read, List.nil_append, List.append_nil, ite_self]
    split_ifs <;>
      rcases SCSfilter_rebootBlock ch o name udv hso with h | h | h | h <;>
        simp [h, SCSfilter_nil]
  · intro e h1 h2 h3 h4 h5 h6 h7 h8 h9 h10 h11 h12
    have hrb : rebootChanged ch = true := by simp [rebootChanged, hso]
    have hrbEq : rebootBlock ch o name udv =
        andThen (updStop o name) fun _ =>
        andThen (updName ch o name) fun _ =>
        andThen (updServiceOffering ch o name) fun _ =>
        andThen (updAffinityIDs ch o name) fun _ =>
        andThen (updAffinityNames ch o name) fun _ =>
        andThen (updKeypairs ch o name) fun _ =>
        andThen (updUserData ch o name udv) fun _ =>
        updStart o name := by
      simp [rebootBlock, hrb]
    constructor
    · simp only [resourceCloudStackInstanceUpdate, andThen_snd, hrbEq,
        updDisplayName_snd ch o name h1, updGroup_snd ch o name h2,
        updStop_snd o name h3, updName_snd ch o name h4,
        updServiceOffering_ok ch o name hso h5 h6,
        updAffinityIDs_snd ch o name h7, updAffinityNames_snd ch o name h8,
        updKeypairs_snd ch o name h9 h10, updUserData_snd ch o name udv h11,
        updStart_err o name e h12]
      simp
    · simp only [resourceCloudStackInstanceUpdate, SCSfilter_andThen, andThen_snd,
        hrbEq, updDisplayName_snd ch o name h1, updGroup_snd ch o name h2,
        updStop_snd o name h3, updName_snd ch o name h4,
        updServiceOffering_ok ch o name hso h5 h6,
        updAffinityIDs_snd ch o name h7, updAffinityNames_snd ch o name h8,
        updKeypairs_snd ch o name h9 h10, updUserData_snd ch o name udv h11,
        updStart_err o name e h12, SCSfilter_updDisplayName, SCSfilter_updGroup,
        SCSfilter_updStop, SCSfilter_updName, SCSfilter_updAffinityIDs,
        SCSfilter_updAffinityNames, SCSfilter_updKeypairs, SCSfilter_updUserData,
        SCSfilter_updTags, SCSfilter_read, List.nil_append, List.append_nil]
      simp [SCSfilter, isSCS]

/-- Witness for C2: a concrete update in which only service_offering changed,
every call up to the offering change succeeds and the start call fails: the
update surfaces the start error (and the trace shows the single stop, change,
start sequence). -/
theorem instanceUpdate_stop_change_start_order_witness :
    (resourceCloudStackInstanceUpdate
        { displayName := false, group := false, name := false, serviceOffering := true,
          affinityIDs := false, affinityNames := false, keypair := false, keypairs := false,
          userData := false, tags := false, details := false }
        { updateDisplayName := Except.ok (), updateGroup := Except.ok (),
          stopVM := Except.ok (), updateName := Except.ok (),
          retrieveServiceOfferingID := Except.ok (), changeServiceOffering := Except.ok (),
          updateAffinityIDs := Except.ok (), updateAffinityNames := Except.ok (),
          setProjectKeypair := Except.ok (), resetSSHKey := Except.ok (),
          updateUserData := Except.ok (), startVM := Except.error "host down",
          updateTags := Except.ok (),
          read := { getVM := ⟨Except.ok { nic := [] }, 1⟩, listVolumes := Except.ok () } }
        "web" "ud" { id := "i-1", networkId := "n-1", ipAddress := "10.0.0.5" }).2 =
      some ("Error starting instance web after making changes") :=
  ((instanceUpdate_stop_change_start_order _ _ "web" "ud" _ rfl).2 "host down"
    rfl rfl rfl rfl rfl rfl rfl rfl rfl rfl rfl rfl).1

/-- Counterexample to C1 as stated: for the valid CIDR 10.0.0.254/31 with no
explicit gateway, startip or endip and specifyipranges true, the subnet base
address is 10.0.0.254, so base + 2 is 10.0.1.0, but parseCIDR computes the
start IP on the last octet alone, which wraps modulo 256 and yields
10.0.0.0. -/
theorem parseCIDR_counterexample :
    (parseCIDR ⟨10, 0, 0, 254⟩ 31 none none none true).startip = some "10.0.0.0" ∧
    specStartip ⟨10, 0, 0, 254⟩ 31 = "10.0.1.0" ∧
    (parseCIDR ⟨10, 0, 0, 254⟩ 31 none none none true).startip ≠
      some (specStartip ⟨10, 0, 0, 254⟩ 31) := by
  refine ⟨?_, ?_, ?_⟩ <;> decide

set_option maxRecDepth 4096

theorem land_255 : ∀ x < 256, x &&& 255 = x := by decide

theorem land_254 : ∀ x < 256, x &&& 254 = x / 2 * 2 := by decide

theorem land_252 : ∀ x < 256, x &&& 252 = x / 4 * 4 := by decide

theorem land_248 : ∀ x < 256, x &&& 248 = x / 8 * 8 := by decide

theorem land_240 : ∀ x < 256, x &&& 240 = x / 16 * 16 := by decide

theorem land_224 : ∀ x < 256, x &&& 224 = x / 32 * 32 := by decide

theorem land_192 : ∀ x < 256, x &&& 192 = x / 64 * 64 := by decide

theorem land_128 : ∀ x < 256, x &&& 128 = x / 128 * 128 := by decide

theorem land_0 : ∀ x < 256, x &&& 0 = 0 := by decide

-- For prefix lengths up to 30, the per-octet byte arithmetic of parseCIDR
-- agrees with 32-bit address arithmetic on the masked base address: adding 1
-- or 2 to the last octet, and the octet-wise broadcast-minus-one computation,
-- never cross an octet boundary.
theorem cidr_octet_arith (a b c d n : Nat) (ha : a < 256) (hb : b < 256)
    (hc : c < 256) (hd : d < 256) (hn : n ≤ 30) :
    IPv4.mk (ipMask ⟨a, b, c, d⟩ (cidrMask n)).a (ipMask ⟨a, b, c, d⟩ (cidrMask n)).b
        (ipMask ⟨a, b, c, d⟩ (cidrMask n)).c
        (((ipMask ⟨a, b, c, d⟩ (cidrMask n)).d + 1) % 256) =
      nat32ToIPv4 ((ipMask ⟨a, b, c, d⟩ (cidrMask n)).toNat32 + 1) ∧
    IPv4.mk (ipMask ⟨a, b, c, d⟩ (cidrMask n)).a (ipMask ⟨a, b, c, d⟩ (cidrMask n)).b
        (ipMask ⟨a, b, c, d⟩ (cidrMask n)).c
        (((ipMask ⟨a, b, c, d⟩ (cidrMask n)).d + 2) % 256) =
      nat32ToIPv4 ((ipMask ⟨a, b, c, d⟩ (cidrMask n)).toNat32 + 2) ∧
    IPv4.mk (((ipMask ⟨a, b, c, d⟩ (cidrMask n)).a + (255 - (cidrMask n).a)) % 256)
        (((ipMask ⟨a, b, c, d⟩ (cidrMask n)).b + (255 - (cidrMask n).b)) % 256)
        (((ipMask ⟨a, b, c, d⟩ (cidrMask n)).c + (255 - (cidrMask n).c)) % 256)
        (((ipMask ⟨a, b, c, d⟩ (cidrMask n)).d + (255 - (cidrMask n).d + 255) % 256) % 256) =
      nat32ToIPv4 ((ipMask ⟨a, b, c, d⟩ (cidrMask n)).toNat32 + (2 ^ (32 - n) - 1) - 1) := by
  interval_cases n <;>
    simp [ipMask, cidrMask, IPv4.toNat32, nat32ToIPv4, land_255, land_254, land_252,
      land_248, land_240, land_224, land_192, land_128, land_0, ha, hb, hc, hd] <;>
    omega

/-- Claim C1 (amended): for every network create configuration supplying a
CIDR with prefix length at most 30 and no explicit gateway, startip or endip,
with specifyipranges true, parseCIDR yields gateway = subnet base address + 1,
startip = base + 2 and endip = broadcast address - 1 (so 10.0.0.0/24 gives
10.0.0.1, 10.0.0.2 and 10.0.0.254); and each value is taken verbatim from the
explicit configuration field when one is supplied.  The restriction to prefix
lengths up to 30 is forced by parseCIDR computing on the last octet modulo 256
without carry, which differs from base + 2 and broadcast - 1 on /31 and /32
subnets (see parseCIDR_counterexample). -/
theorem parseCIDR_defaults (ip : IPv4) (n : Nat) (ha : ip.a < 256)
    (hb : ip.b < 256) (hc : ip.c < 256) (hd : ip.d < 256) (hn : n ≤ 30) :
    (parseCIDR ip n none none none true).gateway = specGateway ip n ∧
    (parseCIDR ip n none none none true).startip = some (specStartip ip n) ∧
    (parseCIDR ip n none none none true).endip = some (specEndip ip n) ∧
    (∀ (gw sip eip : Option String) (sp : Bool),
      (∀ g : String, gw = some g → (parseCIDR ip n gw sip eip sp).gateway = g) ∧
      (∀ s : String, sip = some s → (parseCIDR ip n gw sip eip sp).startip = some s) ∧
      (∀ e : String, eip = some e → (parseCIDR ip n gw sip eip sp).endip = some e)) := by
  obtain ⟨a, b, c, d⟩ := ip
  have h := cidr_octet_arith a b c d n ha hb hc hd hn
  refine ⟨?_, ?_, ?_, fun gw sip eip sp =>
    ⟨fun g hg => by simp [parseCIDR, hg], fun s hs => by simp [parseCIDR, hs],
     fun e he => by simp [parseCIDR, he]⟩⟩
  · exact congrArg IPv4.toStr h.1
  · exact congrArg (fun q => some (IPv4.toStr q)) h.2.1
  · exact congrArg (fun q => some (IPv4.toStr q)) h.2.2

/-- Witness for C1: parseCIDR at the concrete CIDR 10.0.0.0/24 (the spec's
example) yields gateway 10.0.0.1, startip 10.0.0.2 and endip 10.0.0.254; and
with only an explicit gateway supplied, that gateway is taken verbatim while
the other fields are unaffected. -/
theorem parseCIDR_defaults_witness :
    (parseCIDR ⟨10, 0, 0, 0⟩ 24 none none none true).gateway = "10.0.0.1" ∧
    (parseCIDR ⟨10, 0, 0, 0⟩ 24 none none none true).startip = some "10.0.0.2" ∧
    (parseCIDR ⟨10, 0, 0, 0⟩ 24 none none none true).endip = some "10.0.0.254" ∧
    (parseCIDR ⟨10, 0, 0, 0⟩ 24 (some "10.0.0.5") none none true).gateway = "10.0.0.5" := by
  have h := parseCIDR_defaults ⟨10, 0, 0, 0⟩ 24 (by decide) (by decide) (by decide)
    (by decide) (by decide)
  refine ⟨?_, ?_, ?_, ?_⟩
  · rw [h.1]; decide
  · rw [h.2.1]; decide
  · rw [h.2.2.1]; decide
  · exact (h.2.2.2 (some "10.0.0.5") none none true).1 "10.0.0.5" rfl

/-- Claim C7: for every resource kind's Create, when the remote create call
fails no identity is assigned (the local ID remains absent) and the operation
returns a failure; equivalently, since every execution either has the create
call fail or succeed, an identity can only be present when the remote create
call succeeded. -/
theorem create_failure_assigns_no_identity :
    ∀ (e name ipaddr noff : String) (userDataCfg vmId : Option String)
      (attachFlag sourceNat : Bool),
    (∀ o : InstanceCreateOracle, o.deploy = Except.error e →
      ∀ res, resourceCloudStackInstanceCreate name userDataCfg o = some res →
        res.newId = none ∧ res.err ≠ none) ∧
    (∀ o : DiskCreateOracle, o.createVolume = Except.error e →
      (resourceCloudStackDiskCreate name attachFlag vmId o).newId = none ∧
      (resourceCloudStackDiskCreate name attachFlag vmId o).err ≠ none) ∧
    (∀ o : NetworkCreateOracle, o.createNetwork = Except.error e →
      (resourceCloudStackNetworkCreate name sourceNat o).newId = none ∧
      (resourceCloudStackNetworkCreate name sourceNat o).err ≠ none) ∧
    (∀ o : VPCCreateOracle, o.createVPC = Except.error e →
      (resourceCloudStackVPCCreate name o).newId = none ∧
      (resourceCloudStackVPCCreate name o).err ≠ none) ∧
    (∀ o : SecurityGroupCreateOracle, o.createSecurityGroup = Except.error e →
      (resourceCloudStackSecurityGroupCreate name o).newId = none ∧
      (resourceCloudStackSecurityGroupCreate name o).err ≠ none) ∧
    (∀ o : AffinityGroupCreateOracle, o.createAffinityGroup = Except.error e →
      (resourceCloudStackAffinityGroupCreate o).newId = none ∧
      (resourceCloudStackAffinityGroupCreate o).err ≠ none) ∧
    (∀ o : NetworkACLCreateOracle, o.createNetworkACLList = Except.error e →
      (resourceCloudStackNetworkACLCreate name o).newId = none ∧
      (resourceCloudStackNetworkACLCreate name o).err ≠ none) ∧
    (∀ o : PrivateGatewayCreateOracle, o.createPrivateGateway = Except.error e →
      (resourceCloudStackPrivateGatewayCreate ipaddr noff o).newId = none ∧
      (resourceCloudStackPrivateGatewayCreate ipaddr noff o).err ≠ none) ∧
    (∀ o : VPNCustomerGatewayCreateOracle, o.createVpnCustomerGateway = Except.error e →
      (resourceCloudStackVPNCustomerGatewayCreate name o).newId = none ∧
      (resourceCloudStackVPNCustomerGatewayCreate name o).err ≠ none) := by
  intro e name ipaddr noff userDataCfg vmId attachFlag sourceNat
  refine ⟨?_, ?_, ?_, ?_, ?_, ?_, ?_, ?_, ?_⟩
  · intro o h res hres
    rcases o with ⟨f1, f2, f3, f4, f5, f6, f7, f8⟩
    rcases userDataCfg with _ | u <;>
      rcases f1 with e1 | u1 <;> rcases f2 with e2 | u2 <;> rcases f3 with e3 | u3 <;>
        rcases f4 with e4 | u4 <;> rcases f5 with e5 | u5 <;>
          simp_all [resourceCloudStackInstanceCreate, getUserData_err_none] <;>
          (subst hres; simp)
  · intro o h
    rcases o with ⟨f1, f2, f3, f4, f5, f6, f7⟩
    rcases f1 with e1 | u1 <;> rcases f2 with e2 | u2 <;> rcases f3 with e3 | u3 <;>
      simp_all [resourceCloudStackDiskCreate]
  · intro o h
    rcases o with ⟨f1, f2, f3, f4, f5, f6, f7, f8, f9, f10⟩
    rcases f1 with e1 | u1 <;> rcases f2 with e2 | u2 <;> rcases f3 with e3 | u3 <;>
      rcases f4 with e4 | u4 <;> rcases f5 with e5 | u5 <;>
        simp_all [resourceCloudStackNetworkCreate]
  · intro o h
    rcases o with ⟨f1, f2, f3, f4, f5, f6⟩
    rcases f1 with e1 | u1 <;> rcases f2 with e2 | u2 <;> rcases f3 with e3 | u3 <;>
      simp_all [resourceCloudStackVPCCreate]
  · intro o h
    rcases o with ⟨f1, f2, f3⟩
    rcases f1 with e1 | u1 <;> simp_all [resourceCloudStackSecurityGroupCreate]
  · intro o h
    rcases o with ⟨f1, f2, f3⟩
    rcases f1 with e1 | u1 <;> simp_all [resourceCloudStackAffinityGroupCreate]
  · intro o h
    rcases o with ⟨f1, f2⟩
    simp_all [resourceCloudStackNetworkACLCreate]
  · intro o h
    rcases o with ⟨f1, f2, f3⟩
    by_cases hno : (noff != "") = true <;> rcases f1 with e1 | u1 <;>
      simp_all [resourceCloudStackPrivateGatewayCreate]
  · intro o h
    rcases o with ⟨f1, f2, f3⟩
    rcases f1 with e1 | u1 <;> simp_all [resourceCloudStackVPNCustomerGatewayCreate]

/-- Witness for C7: a concrete disk create whose CreateVolume call fails with
"quota exceeded": the result carries no identity and reports failure. -/
theorem create_failure_assigns_no_identity_witness :
    (resourceCloudStackDiskCreate "d1" false none
        { retrieveDiskOfferingID := Except.ok (), setProject := Except.ok ()
          retrieveZoneID := Except.ok (), createVolume := Except.error "quota exceeded"
          setTags := Except.ok ()
          attach := { getVolume := Except.ok ⟨""⟩, attachAttempts := fun _ => Except.ok "v" }
          readVolume := { getVolume := ⟨Except.ok (), 1⟩ } }).newId = none ∧
    (resourceCloudStackDiskCreate "d1" false none
        { retrieveDiskOfferingID := Except.ok (), setProject := Except.ok ()
          retrieveZoneID := Except.ok (), createVolume := Except.error "quota exceeded"
          setTags := Except.ok ()
          attach := { getVolume := Except.ok ⟨""⟩, attachAttempts := fun _ => Except.ok "v" }
          readVolume := { getVolume := ⟨Except.ok (), 1⟩ } }).err ≠ none :=
  (create_failure_assigns_no_identity "quota exceeded" "d1" "" "" none none false
    false).2.1 _ rfl

/-- Claim C10: after a successful deploy, tag set and all preceding steps, the
instance Create reads Nic[0] of the deploy response for the connection info
without a length check: on a response with an empty NIC list the access is
undefined (Go panics; the model returns none), and it is well-defined exactly
when the response carries at least one NIC, in which case the connection host
is the first NIC's address.  The instance Read guards the same access: with an
empty NIC list it succeeds and leaves the network fields unchanged, and with a
non-empty list it sets them from the first NIC. -/
theorem instanceCreate_nic_unguarded :
    (∀ (name : String) (u : Option String) (o : InstanceCreateOracle)
       (z : ZoneInfo) (r : DeployResponse),
      o.retrieveServiceOfferingID = Except.ok () → o.retrieveZoneID = Except.ok () →
      o.getZone = Except.ok z → o.retrieveTemplateID = Except.ok () →
      o.setProject = Except.ok () → o.deploy = Except.ok r → o.setTags = Except.ok () →
      (r.nic = [] → resourceCloudStackInstanceCreate name u o = none) ∧
      (∀ n rest, r.nic = n :: rest →
        ∃ res, resourceCloudStackInstanceCreate name u o = some res ∧
          res.connHost = some n.ipaddress)) ∧
    (∀ (st : InstanceReadState) (o : InstanceReadOracle) (vm : VMInfo),
      o.getVM.res = Except.ok vm → o.listVolumes = Except.ok () →
      (vm.nic = [] →
        resourceCloudStackInstanceRead st o =
          ⟨[Call.GetVirtualMachineByID, Call.ListVolumes], some st.id,
            st.networkId, st.ipAddress, none⟩) ∧
      (∀ n rest, vm.nic = n :: rest →
        resourceCloudStackInstanceRead st o =
          ⟨[Call.GetVirtualMachineByID, Call.ListVolumes], some st.id,
            n.networkid, n.ipaddress, none⟩)) := by
  constructor
  · intro name u o z r h1 h2 h3 h4 h5 h6 h7
    constructor
    · intro hnic
      rcases u with _ | ud <;>
        simp [resourceCloudStackInstanceCreate, h1, h2, h3, h4, h5, h6, h7, hnic,
          getUserData_err_none]
    · intro n rest hnic
      rcases u with _ | ud <;>
        simp [resourceCloudStackInstanceCreate, h1, h2, h3, h4, h5, h6, h7, hnic,
          getUserData_err_none]
  · intro st o vm hvm hlv
    constructor
    · intro hnic
      simp [resourceCloudStackInstanceRead, hvm, hlv, hnic]
    · intro n rest hnic
      simp [resourceCloudStackInstanceRead, hvm, hlv, hnic]

/-- Witness for C10: a concrete deploy response with no NICs makes the Create
undefined (the Go code would panic indexing Nic[0]), while a Read seeing the
same NIC-less machine succeeds and keeps the stored network fields. -/
theorem instanceCreate_nic_unguarded_witness :
    resourceCloudStackInstanceCreate "web" none
      { retrieveServiceOfferingID := Except.ok (), retrieveZoneID := Except.ok ()
        getZone := Except.ok ⟨"Advanced"⟩, retrieveTemplateID := Except.ok ()
        setProject := Except.ok (), deploy := Except.ok ⟨"vm-9", "pw", []⟩
        setTags := Except.ok ()
        read := { getVM := ⟨Except.ok ⟨[]⟩, 1⟩, listVolumes := Except.ok () } } = none ∧
    resourceCloudStackInstanceRead ⟨"vm-9", "net-1", "10.1.1.4"⟩
      { getVM := ⟨Except.ok ⟨[]⟩, 1⟩, listVolumes := Except.ok () } =
      ⟨[Call.GetVirtualMachineByID, Call.ListVolumes], some "vm-9", "net-1",
        "10.1.1.4", none⟩ :=
  ⟨((instanceCreate_nic_unguarded.1 "web" none _ ⟨"Advanced"⟩ ⟨"vm-9", "pw", []⟩
      rfl rfl rfl rfl rfl rfl rfl).1 rfl),
   ((instanceCreate_nic_unguarded.2 ⟨"vm-9", "net-1", "10.1.1.4"⟩ _ ⟨[]⟩ rfl rfl).1 rfl)⟩

theorem validateConflicts_of_pair (supplied : List String) (f c : String)
    (hf : f ∈ supplied) (hc : c ∈ supplied) (hdecl : c ∈ instanceConflictsWith f) :
    (f, c) ∈ validateConflicts supplied := by
  apply List.mem_flatMap.mpr
  refine ⟨f, hf, ?_⟩
  apply List.mem_map.mpr
  refine ⟨c, List.mem_filter.mpr ⟨hdecl, ?_⟩, rfl⟩
  simpa using hc

/-- Claim C8: the instance schema declares keypair/keypairs,
affinity_group_ids/affinity_group_names and
security_group_ids/security_group_names as mutually exclusive (symmetrically),
and a configuration supplying both members of any of these pairs is rejected
by configuration validation with no remote call issued: the apply pipeline
returns a validation error, an empty call trace, and never consults the remote
oracle. -/
theorem conflicting_fields_rejected :
    (instanceConflictsWith "keypair" = ["keypairs"] ∧
     instanceConflictsWith "keypairs" = ["keypair"] ∧
     instanceConflictsWith "affinity_group_ids" = ["affinity_group_names"] ∧
     instanceConflictsWith "affinity_group_names" = ["affinity_group_ids"] ∧
     instanceConflictsWith "security_group_ids" = ["security_group_names"] ∧
     instanceConflictsWith "security_group_names" = ["security_group_ids"]) ∧
    (∀ (supplied : List String) (name : String) (u : Option String)
       (o : InstanceCreateOracle),
      (("keypair" ∈ supplied ∧ "keypairs" ∈ supplied) ∨
       ("affinity_group_ids" ∈ supplied ∧ "affinity_group_names" ∈ supplied) ∨
       ("security_group_ids" ∈ supplied ∧ "security_group_names" ∈ supplied)) →
      (instanceApplyCreate supplied name u o).1 = [] ∧
      (∃ msg, (instanceApplyCreate supplied name u o).2 = Except.error msg) ∧
      (∀ o' : InstanceCreateOracle,
        instanceApplyCreate supplied name u o = instanceApplyCreate supplied name u o')) := by
  refine ⟨⟨by decide, by decide, by decide, by decide, by decide, by decide⟩, ?_⟩
  intro supplied name u o hpair
  have hne : validateConflicts supplied ≠ [] := by
    rcases hpair with ⟨h1, h2⟩ | ⟨h1, h2⟩ | ⟨h1, h2⟩ <;>
      exact List.ne_nil_of_mem (validateConflicts_of_pair supplied _ _ h1 h2 (by decide))
  obtain ⟨p, rest, heq⟩ := List.exists_cons_of_ne_nil hne
  rcases p with ⟨f, c⟩
  refine ⟨?_, ?_, ?_⟩ <;> simp [instanceApplyCreate, heq]

/-- Witness for C8: the concrete configuration supplying both keypair and
keypairs is rejected with an empty call trace. -/
theorem conflicting_fields_rejected_witness :
    (instanceApplyCreate ["keypair", "keypairs"] "web" none
        { retrieveServiceOfferingID := Except.ok (), retrieveZoneID := Except.ok ()
          getZone := Except.ok ⟨"Advanced"⟩, retrieveTemplateID := Except.ok ()
          setProject := Except.ok (), deploy := Except.ok ⟨"vm-9", "pw", []⟩
          setTags := Except.ok ()
          read := { getVM := ⟨Except.ok ⟨[]⟩, 1⟩, listVolumes := Except.ok () } }).1 = [] ∧
    (∃ msg, (instanceApplyCreate ["keypair", "keypairs"] "web" none
        { retrieveServiceOfferingID := Except.ok (), retrieveZoneID := Except.ok ()
          getZone := Except.ok ⟨"Advanced"⟩, retrieveTemplateID := Except.ok ()
          setProject := Except.ok (), deploy := Except.ok ⟨"vm-9", "pw", []⟩
          setTags := Except.ok ()
          read := { getVM := ⟨Except.ok ⟨[]⟩, 1⟩, listVolumes := Except.ok () } }).2 =
      Except.error msg) := by
  have h := (conflicting_fields_rejected.2 ["keypair", "keypairs"] "web" none
    { retrieveServiceOfferingID := Except.ok (), retrieveZoneID := Except.ok ()
      getZone := Except.ok ⟨"Advanced"⟩, retrieveTemplateID := Except.ok ()
      setProject := Except.ok (), deploy := Except.ok ⟨"vm-9", "pw", []⟩
      setTags := Except.ok ()
      read := { getVM := ⟨Except.ok ⟨[]⟩, 1⟩, listVolumes := Except.ok () } }
    (Or.inl ⟨by decide, by decide⟩))
  exact ⟨h.1, h.2.1⟩
